import Mathlib

/-!
Verification development for the SENTINEL GRID workshop's command evaluation
core (`workshop/command_evaluator.py`, `workshop/agent_converter.py`,
`workshop/scenarios.py`).

Conventions of the shallow embedding:
* Python numbers (int and float alike) are modelled as exact rationals `ℚ`
  inside the dynamically-typed value model `PVal`; Python `==` identifies
  `0` with `0.0`, which the single `num` constructor reflects.  Metric
  arithmetic, which in `_calculate_traffic_flow` takes the real power
  `congestion ** 1.5`, is modelled over `ℝ`.
* Python dicts are association lists with string keys, kept in insertion
  order; assignment to an existing key updates it in place.
* A Python function that can raise is modelled with `Option`/`Except`;
  `Option.none`/`Except.error` stands for an uncaught exception.
-/

namespace Workshop

/-- Dynamically-typed Python values as they occur in command parameter maps
and raw service states: numbers (int/float unified as `ℚ`), booleans,
strings, `None`, lists and string-keyed dicts. -/
inductive PVal : Type where
  | num (q : ℚ)
  | bool (b : Bool)
  | str (s : String)
  | none
  | list (xs : List PVal)
  | dict (kvs : List (String × PVal))

/-- Python truthiness: `0`, `False`, `""`, `None` and empty containers are
falsy, everything else truthy. -/
def truthy : PVal → Bool
  | .num q => q != 0
  | .bool b => b
  | .str s => s != ""
  | .none => false
  | .list xs => !xs.isEmpty
  | .dict kvs => !kvs.isEmpty

/-- First binding of key `k` in a dict body (Python dict keys are unique,
so first lookup is the dict lookup). -/
def pget? (kvs : List (String × PVal)) (k : String) : Option PVal :=
  (kvs.find? (fun p => p.1 = k)).map (fun p => p.2)

/-- Python `d.get(k, dflt)`. -/
def pgetD (kvs : List (String × PVal)) (k : String) (dflt : PVal) : PVal :=
  (pget? kvs k).getD dflt

/-- Python `d.get(k)` (default `None`). -/
def pget (kvs : List (String × PVal)) (k : String) : PVal :=
  pgetD kvs k .none

/-- Membership of a key, Python `k in d`. -/
def hasKey (kvs : List (String × PVal)) (k : String) : Bool :=
  kvs.any (fun p => p.1 = k)

/-- Python `a or b`: `a` if truthy else `b`. -/
def por (a b : PVal) : PVal :=
  if truthy a then a else b

/-- Python `isinstance(v, (int, float))`.  `bool` is a subclass of `int`
in Python, so booleans count as numeric. -/
def isNumeric : PVal → Bool
  | .num _ => true
  | .bool _ => true
  | _ => false

/-- Numeric value of a numeric `PVal` (`True == 1`, `False == 0`). -/
def numVal : PVal → ℚ
  | .num q => q
  | .bool b => if b then 1 else 0
  | _ => 0

/-- Decimal rendering of a rational whose denominator divides a power of
ten, used to model Python's `str()` on numbers.  `k` is the smallest
exponent with `q * 10 ^ k` integral (searched up to a fixed bound);
integral values render without a decimal point.  (Python prints a float
`5.0` as `"5.0"`; the model renders it int-style as `"5"`, a deviation
that only shows in numeric-versus-string comparisons no claim exercises.) -/
def ratStr (q : ℚ) : String :=
  match (List.range 40).find? (fun k => (q * (10 : ℚ) ^ k).den = 1) with
  | Option.none => toString q.num ++ "/" ++ toString q.den
  | some 0 => toString q.num
  | some k =>
    let n := (q * (10 : ℚ) ^ k).num
    let sign := if n < 0 then "-" else ""
    let a := n.natAbs
    let ip := a / 10 ^ k
    let fp := a % 10 ^ k
    let fpStr := toString fp
    let pad := String.mk (List.replicate (k - fpStr.length) '0')
    sign ++ toString ip ++ "." ++ pad ++ fpStr

mutual

/-- Python `repr()` of a value (element rendering inside containers);
string escapes are not modelled. -/
def pvalRepr : PVal → String
  | .num q => ratStr q
  | .bool b => if b then "True" else "False"
  | .str s => "'" ++ s ++ "'"
  | .none => "None"
  | .list xs => "[" ++ pvalReprList xs ++ "]"
  | .dict kvs => "\x7b" ++ pvalReprDict kvs ++ "\x7d"
termination_by structural v => v

def pvalReprList : List PVal → String
  | [] => ""
  | [x] => pvalRepr x
  | x :: rest => pvalRepr x ++ ", " ++ pvalReprList rest
termination_by structural v => v

def pvalReprDict : List (String × PVal) → String
  | [] => ""
  | [(k, v)] => "'" ++ k ++ "': " ++ pvalRepr v
  | (k, v) :: rest => "'" ++ k ++ "': " ++ pvalRepr v ++ ", " ++ pvalReprDict rest
termination_by structural v => v

end

/-- Python `str()` of a value: strings render bare, containers via repr. -/
def pstr : PVal → String
  | .str s => s
  | v => pvalRepr v

mutual

/-- Python `==` on values: numbers compare by value (`True == 1`,
`0 == 0.0`), `None` only equals `None`, containers compare recursively.
Dict comparison here is order-sensitive (Python's is order-insensitive);
the two agree on dicts built with the same key order, which covers every
dict this development compares. -/
def pyEq : PVal → PVal → Bool
  | .num a, .num b => a = b
  | .num a, .bool b => a = (if b then 1 else 0)
  | .bool a, .num b => (if a then (1 : ℚ) else 0) = b
  | .bool a, .bool b => a = b
  | .str a, .str b => a = b
  | .none, .none => true
  | .list xs, .list ys => pyEqList xs ys
  | .dict xs, .dict ys => pyEqDict xs ys
  | _, _ => false
termination_by structural a => a

def pyEqList : List PVal → List PVal → Bool
  | [], [] => true
  | x :: xs, y :: ys => pyEq x y && pyEqList xs ys
  | _, _ => false
termination_by structural a => a

def pyEqDict : List (String × PVal) → List (String × PVal) → Bool
  | [], [] => true
  | (k, v) :: xs, (k', v') :: ys => k = k' && pyEq v v' && pyEqDict xs ys
  | _, _ => false
termination_by structural a => a

end

/-- A command as the evaluator sees it: a dict with optional `service`,
`action` and `parameters` entries (`Option.none` = key absent, so that
Python's `.get` defaults are rendered faithfully).  The `parameters`
value is the parameter dict, `[]` when the key is absent or empty. -/
structure PCmd : Type where
  service : Option PVal := Option.none
  action : Option PVal := Option.none
  parameters : List (String × PVal) := []

/-- Python `str.lower()`, character by character (`String.toLower` is
recursion on byte positions, which the kernel cannot unfold; mapping over
the character list computes the same string). -/
def lowerStr (s : String) : String := ⟨s.data.map Char.toLower⟩

/-- `CommandEvaluator._commands_match`: service and action must compare
equal (Python `==` on the raw `.get` results); if either parameter dict is
empty the commands match; otherwise every key of the optimal command's
parameters must be absent from the issued command, or numerically within
`0.2` relative variance (`abs(v1 - v2) / max(abs(v2), 0.1)`), or equal as
case-insensitive strings. -/
def commands_match (cmd1 cmd2 : PCmd) : Bool :=
  if ¬ (pyEq (cmd1.service.getD .none) (cmd2.service.getD .none))
      ∨ ¬ (pyEq (cmd1.action.getD .none) (cmd2.action.getD .none)) then
    false
  else if cmd1.parameters.isEmpty ∨ cmd2.parameters.isEmpty then
    true
  else
    cmd2.parameters.all (fun kv =>
      match pget? cmd1.parameters kv.1 with
      | Option.none => true
      | some v1 =>
        if isNumeric v1 ∧ isNumeric kv.2 then
          decide (|numVal v1 - numVal kv.2| / max |numVal kv.2| (1/10) ≤ 1/5)
        else
          lowerStr (pstr v1) = lowerStr (pstr kv.2))

/-- The match predicate as the (amended) specification states it: equal
service and action; a command with an empty parameter map matches; else
each optimal-command parameter key is absent from the issued command, or
both values are numeric and within 20% relative tolerance of
`max(|optimal value|, 0.1)`, or the values are equal as case-insensitive
strings. -/
def commands_match_spec (cmd1 cmd2 : PCmd) : Prop :=
  pyEq (cmd1.service.getD .none) (cmd2.service.getD .none) = true ∧
  pyEq (cmd1.action.getD .none) (cmd2.action.getD .none) = true ∧
  (cmd1.parameters = [] ∨ cmd2.parameters = [] ∨
    ∀ kv ∈ cmd2.parameters,
      pget? cmd1.parameters kv.1 = Option.none ∨
      (∃ v1, pget? cmd1.parameters kv.1 = some v1 ∧
        ((isNumeric v1 = true ∧ isNumeric kv.2 = true ∧
            |numVal v1 - numVal kv.2| / max |numVal kv.2| (1/10) ≤ 1/5) ∨
         (¬ (isNumeric v1 = true ∧ isNumeric kv.2 = true) ∧
            lowerStr (pstr v1) = lowerStr (pstr kv.2)))))

/-- The optimal heat-wave reference command `adjust_zone{zone_id: zone_a,
capacity: 0.8}` from `HEAT_WAVE_OPTIMAL_COMMANDS`. -/
def optimalAdjustZone : PCmd :=
  { service := some (.str "grid"), action := some (.str "adjust_zone"),
    parameters := [("zone_id", .str "zone_a"), ("capacity", .num (8/10))] }

/-- An issued `adjust_zone` with capacity 0.82. -/
def issuedAdjust82 : PCmd :=
  { service := some (.str "grid"), action := some (.str "adjust_zone"),
    parameters := [("capacity", .num (82/100))] }

/-- An issued `adjust_zone` with capacity 0.95. -/
def issuedAdjust95 : PCmd :=
  { service := some (.str "grid"), action := some (.str "adjust_zone"),
    parameters := [("capacity", .num (95/100))] }

/-! ## Normalized world state and the metric calculator library

The metric calculators read the normalized state shape produced by
`_normalize_state`.  They are embedded over a typed state whose numeric
fields are real numbers (Python float arithmetic is modelled as exact
real arithmetic; `congestion ** 1.5` forces `ℝ`).  Collections are the
value lists of the normalized dicts. -/

/-- A normalized grid zone. -/
structure Zone : Type where
  zone_id : String
  stability : ℝ
  capacity_kw : ℝ
  current_load_kw : ℝ
  is_critical : Bool
  status : String

/-- A normalized incident. -/
structure Incident : Type where
  status : String
  assigned_drone : Option String
  zone : Option String
  urgency : ℝ

/-- A normalized drone (the calculators read only its status). -/
structure Drone : Type where
  status : String

/-- A normalized traffic sector. -/
structure TrafficSector : Type where
  congestion_level : ℝ
  is_blocked : Bool

/-- A normalized infrastructure record (the calculators read only its
priority level). -/
structure InfraRecord : Type where
  level : String

/-- The normalized world state consumed by the metric calculators. -/
structure CState : Type where
  zones : List Zone
  incidents : List Incident
  drones : List Drone
  traffic : List TrafficSector
  infrastructure : List InfraRecord

/-- `_calculate_grid_stability`: stability averaged over zones, critical
zones weighted 2, others 1; 0 with no zones. -/
noncomputable def calculate_grid_stability (s : CState) : ℝ :=
  if s.zones.isEmpty then 0
  else
    let total_stability :=
      (s.zones.map (fun z => z.stability * (if z.is_critical then 2 else 1))).sum
    let total_weight :=
      (s.zones.map (fun z => if z.is_critical then (2 : ℝ) else 1)).sum
    if 0 < total_weight then total_stability / total_weight else 0

/-- The piecewise `score` variable of `_calculate_power_conservation` as
a function of the load ratio. -/
noncomputable def power_score (r : ℝ) : ℝ :=
  if r ≤ 0.6 then 0.6 + (0.6 - r) * 0.5
  else if r ≤ 0.85 then 0.9 + (0.85 - r) * 0.4
  else if r ≤ 0.95 then 0.9 - (r - 0.85) * 3.0
  else max 0.0 (0.6 - (r - 0.95) * 6.0)

/-- `_calculate_power_conservation`: piecewise score of the load ratio,
clamped to `[0, 1]`; 0 with no zones or zero total capacity. -/
noncomputable def calculate_power_conservation (s : CState) : ℝ :=
  if s.zones.isEmpty then 0
  else
    let total_capacity := (s.zones.map (fun z => z.capacity_kw)).sum
    let total_load := (s.zones.map (fun z => z.current_load_kw)).sum
    if total_capacity = 0 then 0
    else max 0.0 (min 1.0 (power_score (total_load / total_capacity)))

/-- Python `inc.get("zone") in critical_zone_ids`: membership of an
incident's (possibly absent) zone in the critical-zone id list. -/
def incident_in_critical_zone (ids : List String) (inc : Incident) : Bool :=
  match inc.zone with
  | some z => ids.contains z
  | Option.none => false

/-- `_calculate_critical_infrastructure`: `0.4 * critical-zone stability +
0.4 * infrastructure priority score + 0.2 * emergency impact`. -/
noncomputable def calculate_critical_infrastructure (s : CState) : ℝ :=
  if s.zones.isEmpty then 0
  else
    let critical_zones := s.zones.filter (fun z => z.is_critical)
    let zone_stability :=
      if !critical_zones.isEmpty then
        (critical_zones.map (fun z => z.stability)).sum / critical_zones.length
      else 0.8
    let priority_score :=
      if !s.infrastructure.isEmpty then
        let critical_count :=
          (s.infrastructure.filter (fun i => i.level == "critical")).length
        let high_count :=
          (s.infrastructure.filter (fun i => i.level == "high")).length
        ((critical_count : ℝ) * 1.0 + (high_count : ℝ) * 0.7) / s.infrastructure.length
      else 0.5
    let critical_zone_ids := critical_zones.map (fun z => z.zone_id)
    let critical_incidents := s.incidents.filter (fun inc =>
      incident_in_critical_zone critical_zone_ids inc &&
      (inc.status == "active" || inc.status == "assigned"))
    let emergency_impact :=
      if !s.incidents.isEmpty && !critical_incidents.isEmpty then
        max 0.5 (1.0 - (critical_incidents.length : ℝ) / s.incidents.length * 0.4)
      else 1.0
    zone_stability * 0.4 + priority_score * 0.4 + emergency_impact * 0.2

/-- `_calculate_incident_response`: assignment rate plus in-progress bonus
minus blocked-traffic penalty, clamped to `[0, 1]`; 1 with no incidents. -/
noncomputable def calculate_incident_response (s : CState) : ℝ :=
  if s.incidents.isEmpty then 1.0
  else
    let assigned := (s.incidents.filter (fun inc => inc.assigned_drone.isSome)).length
    let base_score := (assigned : ℝ) / s.incidents.length
    let in_progress := (s.incidents.filter (fun inc => inc.status == "in_progress")).length
    let progress_bonus := ((in_progress : ℝ) / s.incidents.length) * 0.2
    let traffic_penalty :=
      if !s.traffic.isEmpty then
        ((s.traffic.filter (fun t => t.is_blocked)).length : ℝ) / s.traffic.length * 0.1
      else 0.0
    max 0.0 (min 1.0 (base_score + progress_bonus - traffic_penalty))

/-- `_calculate_incident_resolution`: resolved incidents with half credit
for in-progress ones; 1 with no incidents. -/
noncomputable def calculate_incident_resolution (s : CState) : ℝ :=
  if s.incidents.isEmpty then 1.0
  else
    let resolved := (s.incidents.filter (fun inc => inc.status == "resolved")).length
    let in_progress := (s.incidents.filter (fun inc => inc.status == "in_progress")).length
    ((resolved : ℝ) + (in_progress : ℝ) * 0.5) / s.incidents.length

/-- `_calculate_drone_utilization`: active drones over non-disabled
drones; 0 with no drones or none available. -/
noncomputable def calculate_drone_utilization (s : CState) : ℝ :=
  if s.drones.isEmpty then 0
  else
    let active := (s.drones.filter (fun d =>
      d.status == "assigned" || d.status == "en_route" || d.status == "on_site")).length
    let available := (s.drones.filter (fun d => !(d.status == "disabled"))).length
    if available = 0 then 0
    else (active : ℝ) / (available : ℝ)

/-- `_calculate_response_time`: 1 with no incidents; 0 with no
drone-assigned incident; otherwise base 0.8 reduced by
`avg congestion * 0.3` with floor 0.2 (0.8 with no traffic data). -/
noncomputable def calculate_response_time (s : CState) : ℝ :=
  if s.incidents.isEmpty then 1.0
  else
    let assigned_incidents := s.incidents.filter (fun inc => inc.assigned_drone.isSome)
    if assigned_incidents.isEmpty then 0.0
    else if !s.traffic.isEmpty then
      let avg_congestion := (s.traffic.map (fun t => t.congestion_level)).sum / s.traffic.length
      max 0.2 (0.8 - avg_congestion * 0.3)
    else 0.8

/-- `_calculate_traffic_flow`: per-sector flow (0.1 when blocked, else
`max(0.1, 1 - congestion ** 1.5)`) averaged, with an emergency bonus of
`min(0.1, base * 0.2)` when active incidents exist; 0.7 with no traffic
data; capped at 1.  Model boundary: `congestion ** 1.5` is embedded as
the total real power, which agrees with Python's `**` only for
nonnegative congestion; on a negative congestion level Python's `**`
returns a complex number and the enclosing `max` raises `TypeError`, so
statements about the absence of exceptions must restrict congestion
levels to be nonnegative. -/
noncomputable def calculate_traffic_flow (s : CState) : ℝ :=
  if s.traffic.isEmpty then 0.7
  else
    let total_flow := (s.traffic.map (fun sec =>
      if sec.is_blocked then 0.1
      else max 0.1 (1.0 - sec.congestion_level ^ (1.5 : ℝ)))).sum
    let base_score := total_flow / s.traffic.length
    let active_incidents := s.incidents.filter (fun inc =>
      inc.status == "assigned" || inc.status == "in_progress")
    let with_bonus :=
      if !s.incidents.isEmpty && !active_incidents.isEmpty then
        base_score + min 0.1 (base_score * 0.2)
      else base_score
    min 1.0 with_bonus

/-- `_calculate_emergency_routing`: 0.5 with no traffic data, 0.9 with no
incidents; otherwise congestion-based routing score minus a blocked-route
penalty plus an active-response bonus, capped at 1. -/
noncomputable def calculate_emergency_routing (s : CState) : ℝ :=
  if s.traffic.isEmpty then 0.5
  else if s.incidents.isEmpty then 0.9
  else
    let avg_congestion := (s.traffic.map (fun t => t.congestion_level)).sum / s.traffic.length
    let blocked_ratio := ((s.traffic.filter (fun t => t.is_blocked)).length : ℝ) / s.traffic.length
    let routing_score := max 0.2 (1.0 - avg_congestion * 0.8)
    let after_penalty := max 0.1 (routing_score - blocked_ratio * 0.3)
    let active_emergencies := (s.incidents.filter (fun inc =>
      inc.status == "assigned" || inc.status == "in_progress")).length
    let after_bonus :=
      if 0 < active_emergencies then
        after_penalty + ((active_emergencies : ℝ) / s.incidents.length) * 0.2
      else after_penalty
    min 1.0 after_bonus

/-- `_calculate_congestion_management`: banded congestion scoring plus an
emergency-tolerance adjustment, capped at 1; 0.5 with no traffic data. -/
noncomputable def calculate_congestion_management (s : CState) : ℝ :=
  if s.traffic.isEmpty then 0.5
  else
    let excellent := (s.traffic.filter (fun t => decide (t.congestion_level ≤ 0.2))).length
    let good := (s.traffic.filter (fun t =>
      decide (0.2 < t.congestion_level ∧ t.congestion_level ≤ 0.4))).length
    let moderate := (s.traffic.filter (fun t =>
      decide (0.4 < t.congestion_level ∧ t.congestion_level ≤ 0.6))).length
    let poor := (s.traffic.filter (fun t =>
      decide (0.6 < t.congestion_level ∧ t.congestion_level ≤ 0.8))).length
    let critical := (s.traffic.filter (fun t => decide (0.8 < t.congestion_level))).length
    let score := ((excellent : ℝ) * 1.0 + (good : ℝ) * 0.8 + (moderate : ℝ) * 0.6 +
      (poor : ℝ) * 0.3 + (critical : ℝ) * 0.0) / s.traffic.length
    let active_incidents := s.incidents.filter (fun inc =>
      inc.status == "active" || inc.status == "assigned" || inc.status == "in_progress")
    let adjusted :=
      if !s.incidents.isEmpty && !active_incidents.isEmpty then
        score + min 0.1 ((active_incidents.length : ℝ) / s.incidents.length * 0.15)
      else score
    min 1.0 adjusted

/-- Factor 1 of `_calculate_overall_coordination` (grid-emergency):
present when zones, incidents and critical zones all exist. -/
noncomputable def coordination_factor1 (s : CState) : Option ℝ :=
  if !s.zones.isEmpty && !s.incidents.isEmpty then
    let critical_zones := s.zones.filter (fun z => z.is_critical)
    if !critical_zones.isEmpty then
      let critical_zone_ids := critical_zones.map (fun z => z.zone_id)
      let critical_incidents := s.incidents.filter (fun inc =>
        incident_in_critical_zone critical_zone_ids inc)
      some (if !critical_incidents.isEmpty then
          let emergency_zones := critical_zones.filter (fun z =>
            critical_zone_ids.contains z.zone_id)
          if !emergency_zones.isEmpty then
            (emergency_zones.map (fun z => z.stability)).sum / emergency_zones.length
          else 0.7
        else 0.9)
    else Option.none
  else Option.none

/-- Factor 2 of `_calculate_overall_coordination` (traffic-emergency). -/
noncomputable def coordination_factor2 (s : CState) : Option ℝ :=
  if !s.traffic.isEmpty && !s.incidents.isEmpty then
    let active_incidents := s.incidents.filter (fun inc =>
      inc.status == "assigned" || inc.status == "in_progress")
    some (if !active_incidents.isEmpty then
        let avg_congestion :=
          (s.traffic.map (fun t => t.congestion_level)).sum / s.traffic.length
        max 0.3 (1.0 - avg_congestion * 0.7)
      else 0.8)
  else Option.none

/-- Factor 3 of `_calculate_overall_coordination` (grid-traffic). -/
noncomputable def coordination_factor3 (s : CState) : Option ℝ :=
  if !s.zones.isEmpty && !s.traffic.isEmpty then
    let avg_stability := (s.zones.map (fun z => z.stability)).sum / s.zones.length
    let avg_congestion := (s.traffic.map (fun t => t.congestion_level)).sum / s.traffic.length
    some ((avg_stability * 0.6) + ((1.0 - avg_congestion) * 0.4))
  else Option.none

/-- `_calculate_overall_coordination`: average of the applicable
cross-service coordination factors; 0.5 when none applies. -/
noncomputable def calculate_overall_coordination (s : CState) : ℝ :=
  let factors :=
    [coordination_factor1 s, coordination_factor2 s, coordination_factor3 s].filterMap id
  if factors.isEmpty then 0.5
  else factors.sum / factors.length

/-- The drone-utilization band factor of
`_calculate_resource_efficiency` (peak reward at 70-90% utilization). -/
noncomputable def drone_efficiency_factor (s : CState) : Option ℝ :=
  if !s.drones.isEmpty then
    let active := (s.drones.filter (fun d =>
      d.status == "assigned" || d.status == "en_route" || d.status == "on_site")).length
    let available := (s.drones.filter (fun d => !(d.status == "disabled"))).length
    if 0 < available then
      let utilization := (active : ℝ) / (available : ℝ)
      some (if utilization ≤ 0.7 then utilization / 0.7 * 0.8
        else if utilization ≤ 0.9 then 0.8 + (utilization - 0.7) * 1.0
        else max 0.7 (1.0 - (utilization - 0.9) * 2.0))
    else Option.none
  else Option.none

/-- `_calculate_resource_efficiency`: average of the drone-utilization
band score (when drones are available), power conservation, and traffic
flow. -/
noncomputable def calculate_resource_efficiency (s : CState) : ℝ :=
  let factors :=
    (match drone_efficiency_factor s with
     | some d => [d]
     | Option.none => []) ++
    [calculate_power_conservation s, calculate_traffic_flow s]
  if factors.isEmpty then 0
  else factors.sum / factors.length

/-- The metric-calculator dispatch (`_initialize_metric_calculators`
combined with the missing-calculator default of
`_calculate_current_metrics`): unknown calculation names score 0.0. -/
noncomputable def metric_calculator (calculation : String) (s : CState) : ℝ :=
  if calculation = "grid_stability" then calculate_grid_stability s
  else if calculation = "power_conservation" then calculate_power_conservation s
  else if calculation = "critical_infrastructure" then calculate_critical_infrastructure s
  else if calculation = "incident_response" then calculate_incident_response s
  else if calculation = "incident_resolution" then calculate_incident_resolution s
  else if calculation = "drone_utilization" then calculate_drone_utilization s
  else if calculation = "response_time" then calculate_response_time s
  else if calculation = "traffic_flow" then calculate_traffic_flow s
  else if calculation = "emergency_routing" then calculate_emergency_routing s
  else if calculation = "congestion_management" then calculate_congestion_management s
  else if calculation = "overall_coordination" then calculate_overall_coordination s
  else if calculation = "resource_efficiency" then calculate_resource_efficiency s
  else 0.0

/-! ## Scenario evaluation configuration and the evaluator pipeline -/

/-- `scenarios.MetricType`. -/
inductive MetricType : Type where
  | threshold
  | range
  | trend
  | comparison
  deriving DecidableEq

/-- A metric target: `MetricDefinition.target` is annotated `Any`; in
practice it is a scalar (threshold metrics) or a pair (range metrics). -/
inductive MTarget : Type where
  | scalar (x : ℝ)
  | range (lo hi : ℝ)

/-- `scenarios.MetricDefinition`. -/
structure MetricDef : Type where
  name : String
  type : MetricType
  target : MTarget
  weight : ℝ
  service : String
  calculation : String

/-- `scenarios.CommandImpact`: an optimal command with its declared
metric impacts. -/
structure CmdImpact : Type where
  command : PCmd
  affected_metrics : List String
  expected_impact : List (String × ℝ)

/-- `scenarios.ScenarioEvaluation`, restricted to the fields the
evaluator reads. -/
structure EvalConfig : Type where
  metrics : List MetricDef
  optimal_commands : List CmdImpact

/-- Python dict assignment `d[k] = v` on an association list: update the
existing binding in place, else append. -/
def dinsert {α : Type} (k : String) (v : α) : List (String × α) → List (String × α)
  | [] => [(k, v)]
  | (k', v') :: rest => if k' = k then (k, v) :: rest else (k', v') :: dinsert k v rest

/-- Python dict lookup `d.get(k)` on an association list. -/
def dget? {α : Type} (d : List (String × α)) (k : String) : Option α :=
  (d.find? (fun p => p.1 = k)).map (fun p => p.2)

/-- `_calculate_current_metrics`: the dict of each declared metric's
current value (0.0 for a metric without calculator, built into
`metric_calculator`). -/
noncomputable def calculate_current_metrics (cfg : EvalConfig) (s : CState) :
    List (String × ℝ) :=
  cfg.metrics.foldl (fun acc m => dinsert m.name (metric_calculator m.calculation s) acc) []

/-- One entry of the metric-progress dict. -/
structure ProgEntry : Type where
  current : ℝ
  target : MTarget
  achieved : Prop
  progress : ℝ

/-- The progress record `_calculate_metric_progress` computes for one
metric: threshold metrics need a scalar target (`current / target` on a
tuple raises `TypeError`, modelled as `Except.error`), range metrics need
a pair target (unpacking a scalar raises), other metric types produce no
entry. -/
noncomputable def metric_progress_entry (m : MetricDef) (current : ℝ) :
    Except Unit (Option ProgEntry) :=
  match m.type with
  | .threshold =>
    match m.target with
    | .scalar t =>
      .ok (some { current := current, target := m.target, achieved := current ≥ t,
                  progress := min 1.0 (if t ≠ 0 then current / t else 0) })
    | .range _ _ => .error ()
  | .range =>
    match m.target with
    | .range lo hi =>
      .ok (some { current := current, target := m.target,
                  achieved := lo ≤ current ∧ current ≤ hi,
                  progress := if lo ≤ current ∧ current ≤ hi then 1.0 else 0.0 })
    | .scalar _ => .error ()
  | _ => .ok Option.none

/-- The progress entry a non-raising metric produces, as a total
function (the non-progressing cases are never reached on progressible
metrics). -/
noncomputable def progress_entry_of (m : MetricDef) (c : ℝ) : ProgEntry :=
  match m.type, m.target with
  | .threshold, .scalar t =>
    { current := c, target := m.target, achieved := c ≥ t,
      progress := min 1.0 (if t ≠ 0 then c / t else 0) }
  | .range, .range lo hi =>
    { current := c, target := m.target, achieved := lo ≤ c ∧ c ≤ hi,
      progress := if lo ≤ c ∧ c ≤ hi then 1.0 else 0.0 }
  | _, _ => { current := c, target := m.target, achieved := False, progress := 0 }

/-- One iteration of the `_calculate_metric_progress` loop: look the
metric's current value up (default 0.0), store the progress record under
the metric's name, keep the dict unchanged for trend/comparison
metrics. -/
noncomputable def progress_step (cur : List (String × ℝ))
    (acc : List (String × ProgEntry)) (m : MetricDef) :
    Except Unit (List (String × ProgEntry)) :=
  (metric_progress_entry m ((dget? cur m.name).getD 0.0)).map (fun e =>
    match e with
    | some en => dinsert m.name en acc
    | Option.none => acc)

/-- `_calculate_metric_progress`: the progress dict over the declared
metrics, short-circuiting on the first raising metric. -/
noncomputable def calculate_metric_progress (cfg : EvalConfig) (cur : List (String × ℝ)) :
    Except Unit (List (String × ProgEntry)) :=
  cfg.metrics.foldlM (progress_step cur) []

/-- One record of `_compare_with_optimal`'s matches list. -/
structure MatchRecord : Type where
  optimal : PCmd
  executed : Option PCmd
  matched : Bool

/-- The result of `_compare_with_optimal`. -/
structure OptimalComparison : Type where
  matches_list : List MatchRecord
  match_count : ℕ
  total_optimal : ℕ
  score : ℝ

/-- `_compare_with_optimal`: each optimal command is matched against the
first issued command satisfying `_commands_match`; the score is the
matched fraction, 0.0 with no optimal commands. -/
noncomputable def compare_with_optimal (cfg : EvalConfig) (cmds : List PCmd) :
    OptimalComparison :=
  let optimal_commands := cfg.optimal_commands.map (fun opt => opt.command)
  let recs := optimal_commands.map (fun opt =>
    match cmds.find? (fun c => commands_match c opt) with
    | some c => MatchRecord.mk opt (some c) true
    | Option.none => MatchRecord.mk opt Option.none false)
  let match_count := (recs.filter (fun m => m.matched)).length
  { matches_list := recs, match_count := match_count,
    total_optimal := optimal_commands.length,
    score := if optimal_commands.isEmpty then 0.0
      else (match_count : ℝ) / optimal_commands.length }

/-- The analysis dict `_analyze_command_impact` builds for a command
without optimal match. -/
structure ImpactAnalysis : Type where
  affected_metrics : List String
  expected_impact : List (String × ℝ)
  relevance_score : ℝ

/-- `_analyze_command_impact`: heuristic relevance and per-metric impact
estimates for a command, keyed by its service and action (read with Python
defaults `""`); the `current_metrics` argument of the source is unused by
its body and omitted here. -/
def analyze_command_impact (cfg : EvalConfig) (cmd : PCmd) : ImpactAnalysis :=
  let service := cmd.service.getD (.str "")
  let action := cmd.action.getD (.str "")
  let service_metrics :=
    (cfg.metrics.filter (fun m => pyEq (.str m.service) service)).map (fun m => m.name)
  let base : ImpactAnalysis :=
    { affected_metrics := service_metrics,
      expected_impact := service_metrics.map (fun n => (n, (0.15 : ℝ))),
      relevance_score := 0.75 }
  if pyEq service (.str "grid") then
    if pyEq action (.str "adjust_zone") then
      let a1 := if service_metrics.contains "grid_stability" then
          { base with
              expected_impact := dinsert "grid_stability" 0.25 base.expected_impact,
              relevance_score := 0.95 }
        else base
      if service_metrics.contains "power_conservation" then
        { a1 with expected_impact := dinsert "power_conservation" 0.3 a1.expected_impact }
      else a1
    else if pyEq action (.str "set_priority") then
      let a1 := if service_metrics.contains "critical_infrastructure" then
          { base with
            expected_impact := dinsert "critical_infrastructure" 0.35 base.expected_impact }
        else base
      let a2 := if service_metrics.contains "grid_stability" then
          { a1 with expected_impact := dinsert "grid_stability" 0.2 a1.expected_impact }
        else a1
      { a2 with relevance_score := 0.9 }
    else base
  else if pyEq service (.str "emergency") then
    if pyEq action (.str "assign_drone") then
      let a1 := if service_metrics.contains "incident_response" then
          { base with
            expected_impact := dinsert "incident_response" 0.35 base.expected_impact }
        else base
      let a2 := if service_metrics.contains "response_time" then
          { a1 with expected_impact := dinsert "response_time" 0.25 a1.expected_impact }
        else a1
      let a3 := if service_metrics.contains "drone_utilization" then
          { a2 with expected_impact := dinsert "drone_utilization" 0.4 a2.expected_impact }
        else a2
      { a3 with relevance_score := 0.98 }
    else if pyEq action (.str "update_incident") then
      let a1 := if service_metrics.contains "incident_response" then
          { base with
            expected_impact := dinsert "incident_response" 0.25 base.expected_impact }
        else base
      let a2 := if service_metrics.contains "incident_resolution" then
          { a1 with expected_impact := dinsert "incident_resolution" 0.3 a1.expected_impact }
        else a1
      { a2 with relevance_score := 0.85 }
    else base
  else if pyEq service (.str "traffic") then
    if pyEq action (.str "redirect") then
      let a1 := if service_metrics.contains "traffic_flow" then
          { base with expected_impact := dinsert "traffic_flow" 0.3 base.expected_impact }
        else base
      let a2 := if service_metrics.contains "emergency_routing" then
          { a1 with expected_impact := dinsert "emergency_routing" 0.25 a1.expected_impact }
        else a1
      let a3 := if service_metrics.contains "congestion_management" then
          { a2 with
            expected_impact := dinsert "congestion_management" 0.35 a2.expected_impact }
        else a2
      { a3 with relevance_score := 0.95 }
    else if pyEq action (.str "block_route") then
      let a1 := if service_metrics.contains "emergency_routing" then
          { base with
            expected_impact := dinsert "emergency_routing" 0.3 base.expected_impact }
        else base
      let a2 := if service_metrics.contains "congestion_management" then
          { a1 with
            expected_impact := dinsert "congestion_management" 0.25 a1.expected_impact }
        else a1
      { a2 with relevance_score := 0.8 }
    else base
  else base

/-- The per-command result dict of `_evaluate_command_impact`: a matched
command carries the optimal command's impacts and the perfect score 1.0,
an unmatched one carries the heuristic analysis. -/
structure CommandImpactResult : Type where
  command : PCmd
  optimal_match : Bool
  affected_metrics : List String := []
  expected_impact : List (String × ℝ) := []
  score : Option ℝ := Option.none
  impact_analysis : Option ImpactAnalysis := Option.none

/-- `_evaluate_command_impact`: match the command against the first
matching optimal command; score 1.0 on match, heuristic analysis
otherwise. -/
noncomputable def evaluate_command_impact (cfg : EvalConfig) (cmd : PCmd) :
    CommandImpactResult :=
  match cfg.optimal_commands.find? (fun opt => commands_match cmd opt.command) with
  | some opt =>
    { command := cmd, optimal_match := true,
      affected_metrics := opt.affected_metrics,
      expected_impact := opt.expected_impact, score := some 1.0 }
  | Option.none =>
    { command := cmd, optimal_match := false,
      impact_analysis := some (analyze_command_impact cfg cmd) }

/-- `_calculate_overall_score`: `0.85 * weight-normalized metric progress
+ 0.15 * optimal-comparison score`. -/
noncomputable def calculate_overall_score (cfg : EvalConfig)
    (prog : List (String × ProgEntry)) (cmp : OptimalComparison) : ℝ :=
  let pairs := cfg.metrics.filterMap (fun m =>
    (dget? prog m.name).map (fun e => (e.progress, m.weight)))
  let metric_score := (pairs.map (fun p => p.1 * p.2)).sum
  let total_weight := (pairs.map (fun p => p.2)).sum
  let normalized := if 0 < total_weight then metric_score / total_weight else metric_score
  0.85 * normalized + 0.15 * cmp.score

/-- The evaluation result dict of `evaluate_commands`. -/
structure EvalResult : Type where
  current_metrics : List (String × ℝ)
  command_impacts : List CommandImpactResult
  metric_progress : List (String × ProgEntry)
  optimal_comparison : OptimalComparison
  overall_score : ℝ

/-- `CommandEvaluator.evaluate_commands`: metric values, per-command
impacts, metric progress, optimal comparison and the overall score.  An
exception raised while computing metric progress (mismatched target
shape) propagates. -/
noncomputable def evaluate_commands (cfg : EvalConfig) (cmds : List PCmd) (state : CState) :
    Except Unit EvalResult :=
  let cur := calculate_current_metrics cfg state
  let impacts := cmds.map (fun c => evaluate_command_impact cfg c)
  match calculate_metric_progress cfg cur with
  | .error e => .error e
  | .ok prog =>
    let cmp := compare_with_optimal cfg cmds
    .ok { current_metrics := cur, command_impacts := impacts, metric_progress := prog,
          optimal_comparison := cmp,
          overall_score := calculate_overall_score cfg prog cmp }

/-! ## Agent output conversion (`agent_converter.py`) -/

/-- `command.ServiceType`. -/
inductive ServiceType : Type where
  | grid
  | emergency
  | traffic
  deriving DecidableEq

/-- `command.Command`, restricted to the fields the converter sets (the
converter only constructs actions from the allowed-action table, so the
construction-time action validator never raises on its outputs). -/
structure Command : Type where
  service : ServiceType
  action : String
  parameters : List (String × PVal)

/-- One CrewAI task output as the converter reads it: the structured
dict from `to_dict()` and the raw text from `str(task_output)`. -/
structure TaskOutput : Type where
  dict : List (String × PVal)
  text : String

/-- Whether the first character list starts the second. -/
def leadsWith : List Char → List Char → Bool
  | [], _ => true
  | _ :: _, [] => false
  | a :: as, b :: bs => a = b && leadsWith as bs

/-- Python substring membership `needle in hay` on character lists. -/
def occursIn (needle : List Char) : List Char → Bool
  | [] => needle.isEmpty
  | c :: rest => leadsWith needle (c :: rest) || occursIn needle rest

/-- The fixed free-text pattern table of `_extract_fallback_tool_usage`. -/
def tool_patterns : List (String × String × ServiceType) :=
  [("Grid zone", "adjust_zone", .grid),
   ("Infrastructure", "set_priority", .grid),
   ("Drone", "assign_drone", .emergency),
   ("Incident", "update_incident", .emergency),
   ("Traffic", "redirect", .traffic),
   ("Route", "block_route", .traffic)]

/-- `_extract_fallback_tool_usage`: one generic credit-only command per
pattern whose lower-cased text occurs in the lower-cased output. -/
def extract_fallback_tool_usage (output_text : String) : List Command :=
  (tool_patterns.filter (fun p =>
      occursIn (lowerStr p.1).toList (lowerStr output_text).toList)).map
    (fun p => { service := p.2.2, action := p.2.1,
                parameters := [("fallback", .bool true)] })

/-- Iterating `task_dict.get(key, [])`: a list yields its elements; a
missing key yields the `[]` default; iterating a string (its characters)
or a dict (its string keys) yields no dict entries, hence no commands;
iterating a number, boolean or `None` raises `TypeError`. -/
def getIter (d : List (String × PVal)) (k : String) : Option (List PVal) :=
  match pget? d k with
  | Option.none => some []
  | some (.list xs) => some xs
  | some (.str _) => some []
  | some (.dict _) => some []
  | some _ => Option.none

/-- A `zone_adjustments` entry: a dict with `zone_id` and `capacity`
becomes a grid `adjust_zone` command. -/
def zone_adjustment_cmd (v : PVal) : Option Command :=
  match v with
  | .dict kv =>
    if hasKey kv "zone_id" && hasKey kv "capacity" then
      some { service := .grid, action := "adjust_zone",
             parameters := [("zone_id", pget kv "zone_id"),
                            ("capacity", pget kv "capacity")] }
    else Option.none
  | _ => Option.none

/-- A `priority_settings` entry. -/
def priority_setting_cmd (v : PVal) : Option Command :=
  match v with
  | .dict kv =>
    if hasKey kv "infrastructure_id" && hasKey kv "level" then
      some { service := .grid, action := "set_priority",
             parameters := [("infrastructure_id", pget kv "infrastructure_id"),
                            ("level", pget kv "level")] }
    else Option.none
  | _ => Option.none

/-- A `drone_assignments` entry. -/
def drone_assignment_cmd (v : PVal) : Option Command :=
  match v with
  | .dict kv =>
    if hasKey kv "drone_id" && hasKey kv "incident_id" then
      some { service := .emergency, action := "assign_drone",
             parameters := [("drone_id", pget kv "drone_id"),
                            ("incident_id", pget kv "incident_id")] }
    else Option.none
  | _ => Option.none

/-- An `incident_updates` entry. -/
def incident_update_cmd (v : PVal) : Option Command :=
  match v with
  | .dict kv =>
    if hasKey kv "incident_id" && hasKey kv "status" then
      some { service := .emergency, action := "update_incident",
             parameters := [("incident_id", pget kv "incident_id"),
                            ("status", pget kv "status")] }
    else Option.none
  | _ => Option.none

/-- A `traffic_redirections` entry. -/
def traffic_redirection_cmd (v : PVal) : Option Command :=
  match v with
  | .dict kv =>
    if hasKey kv "sector_id" && hasKey kv "target_reduction" then
      some { service := .traffic, action := "redirect",
             parameters := [("sector_id", pget kv "sector_id"),
                            ("target_reduction", pget kv "target_reduction")] }
    else Option.none
  | _ => Option.none

/-- A `route_blocks` entry (reason defaults to "Emergency access"). -/
def route_block_cmd (v : PVal) : Option Command :=
  match v with
  | .dict kv =>
    if hasKey kv "sector_id" && hasKey kv "duration_minutes" then
      some { service := .traffic, action := "block_route",
             parameters := [("sector", pget kv "sector_id"),
                            ("reason", pgetD kv "reason" (.str "Emergency access")),
                            ("duration_minutes", pget kv "duration_minutes")] }
    else Option.none
  | _ => Option.none

/-- The commands one task output contributes in
`convert_agent_results_to_commands`: coordination tasks (empty dict) are
skipped; a dict with grid/emergency/traffic plan keys is converted
field-by-field; anything else goes through fallback extraction.  A
`TypeError` while iterating a plan field aborts the task (the per-task
`except` clause) but keeps the commands already appended. -/
def process_task (t : TaskOutput) : List Command :=
  if t.dict.isEmpty then []
  else if hasKey t.dict "zone_adjustments" || hasKey t.dict "priority_settings" then
    match getIter t.dict "zone_adjustments" with
    | Option.none => []
    | some za =>
      let c1 := za.filterMap zone_adjustment_cmd
      match getIter t.dict "priority_settings" with
      | Option.none => c1
      | some ps => c1 ++ ps.filterMap priority_setting_cmd
  else if hasKey t.dict "drone_assignments" || hasKey t.dict "incident_updates" then
    match getIter t.dict "drone_assignments" with
    | Option.none => []
    | some da =>
      let c1 := da.filterMap drone_assignment_cmd
      match getIter t.dict "incident_updates" with
      | Option.none => c1
      | some iu => c1 ++ iu.filterMap incident_update_cmd
  else if hasKey t.dict "traffic_redirections" || hasKey t.dict "route_blocks" then
    match getIter t.dict "traffic_redirections" with
    | Option.none => []
    | some tr =>
      let c1 := tr.filterMap traffic_redirection_cmd
      match getIter t.dict "route_blocks" with
      | Option.none => c1
      | some rb => c1 ++ rb.filterMap route_block_cmd
  else extract_fallback_tool_usage t.text

/-- `convert_agent_results_to_commands`: all task outputs' commands in
order (an absent or empty `tasks_output` is the empty list). -/
def convert_agent_results_to_commands (tasks_output : List TaskOutput) : List Command :=
  tasks_output.foldl (fun acc t => acc ++ process_task t) []

/-! ## State normalization (`_normalize_state`)

The normalizer operates on raw Python dicts, modelled over `PVal`.
`Option.none` models an uncaught exception.  One model boundary: raw
collection entries whose extracted id is truthy but not a string (Python
would key the normalized dict by a non-string value, which the
string-keyed dict model cannot express) also map to `Option.none`. -/

/-- The normalized zone dict built by `_normalize_state` (both the list
and the dict branch build the same seven fields in this order). -/
def mkZoneVal (zone_id : String) (z : List (String × PVal)) : PVal :=
  .dict [("id", .str zone_id),
         ("stability", pgetD z "stability" (.num 0)),
         ("capacity_kw", por (pget z "capacity_kw") (pgetD z "capacity" (.num 0))),
         ("current_load_kw",
          por (pget z "current_load_kw") (pgetD z "current_load" (.num 0))),
         ("is_critical", pgetD z "is_critical" (.bool false)),
         ("status", pgetD z "status" (.str "normal")),
         ("zone_id", .str zone_id)]

/-- The normalized incident dict. -/
def mkIncidentVal (incident_id : String) (i : List (String × PVal)) : PVal :=
  .dict [("id", .str incident_id),
         ("status", pgetD i "status" (.str "active")),
         ("assigned_drone", pget i "assigned_drone"),
         ("zone", por (pget i "zone") (pget i "location")),
         ("urgency", pgetD i "urgency" (.num 0)),
         ("description", pgetD i "description" (.str ""))]

/-- The normalized drone dict. -/
def mkDroneVal (drone_id : String) (d : List (String × PVal)) : PVal :=
  .dict [("id", .str drone_id),
         ("status", pgetD d "status" (.str "available")),
         ("capabilities", pgetD d "capabilities" (.list [])),
         ("speed", pgetD d "speed" (.num 1)),
         ("assigned_incident", pget d "assigned_incident")]

/-- The normalized traffic sector dict. -/
def mkSectorVal (sector_id : String) (t : List (String × PVal)) : PVal :=
  .dict [("id", .str sector_id),
         ("zone_id", .str sector_id),
         ("congestion_level",
          por (pget t "congestion_level") (pgetD t "congestion" (.num 0))),
         ("is_blocked", por (pget t "is_blocked") (pgetD t "blocked" (.bool false))),
         ("description", pgetD t "description" (.str ""))]

/-- Normalize a collection given as a list of entry dicts: entries whose
id (first truthy of the given id keys) is falsy are dropped, a non-dict
entry raises (`entry.get` on a non-dict), a truthy non-string id is the
model boundary. -/
def entry_step (idOf : List (String × PVal) → PVal)
    (mk : String → List (String × PVal) → PVal)
    (acc : List (String × PVal)) (e : PVal) : Option (List (String × PVal)) :=
  match e with
  | .dict fields =>
    let idv := idOf fields
    if truthy idv then
      match idv with
      | .str s => some (dinsert s (mk s fields) acc)
      | _ => Option.none
    else some acc
  | _ => Option.none

/-- The whole entry-list loop, folding `entry_step` from the empty
dict. -/
def normalize_entry_list (idOf : List (String × PVal) → PVal)
    (mk : String → List (String × PVal) → PVal)
    (xs : List PVal) : Option (List (String × PVal)) :=
  xs.foldlM (entry_step idOf mk) []

/-- One iteration of the dict-shaped collection loop (zones and traffic
given as dicts): a dict value is renormalized under its key, any other
value is skipped. -/
def dict_norm_step (mk : String → List (String × PVal) → PVal)
    (acc : List (String × PVal)) (p : String × PVal) : List (String × PVal) :=
  match p.2 with
  | .dict zf => dinsert p.1 (mk p.1 zf) acc
  | _ => acc

/-- Zones: a list is normalized entry-wise (id from `id` or `zone_id`);
a dict is rebuilt value-wise with the keys as ids, skipping non-dict
values; anything else raises (`.items()` on a non-dict). -/
def normalize_zones : PVal → Option (List (String × PVal))
  | .list xs =>
    normalize_entry_list (fun f => por (pget f "id") (pget f "zone_id")) mkZoneVal xs
  | .dict kvs => some (kvs.foldl (dict_norm_step mkZoneVal) [])
  | _ => Option.none

/-- Incidents: a list is normalized entry-wise into a dict (id from `id`
or `incident_id`); any non-list value is passed through unchanged. -/
def normalize_incidents : PVal → Option PVal
  | .list xs =>
    (normalize_entry_list (fun f => por (pget f "id") (pget f "incident_id"))
      mkIncidentVal xs).map (fun l => PVal.dict l)
  | v => some v

/-- Drones: like incidents (id from `id` or `drone_id`). -/
def normalize_drones : PVal → Option PVal
  | .list xs =>
    (normalize_entry_list (fun f => por (pget f "id") (pget f "drone_id"))
      mkDroneVal xs).map (fun l => PVal.dict l)
  | v => some v

/-- Traffic: a list is normalized entry-wise (id from `id`, `zone_id` or
`sector_id`); a dict is rebuilt value-wise skipping non-dict values;
anything else raises. -/
def normalize_traffic : PVal → Option (List (String × PVal))
  | .list xs =>
    normalize_entry_list
      (fun f => por (por (pget f "id") (pget f "zone_id")) (pget f "sector_id"))
      mkSectorVal xs
  | .dict kvs => some (kvs.foldl (dict_norm_step mkSectorVal) [])
  | _ => Option.none

/-- The nested lookup `outer in state and inner in state[outer]` with the
subsequent `state[outer][inner]`: `some (some v)` when it produces a
value, `some none` when the test falls through, `none` when the `in` test
or the indexing raises (membership on a list or substring test on a
string succeeding leads to a raising index expression; `in` on a number,
boolean or `None` raises at once). -/
def select_nested (state : List (String × PVal)) (outerKey innerKey : String) :
    Option (Option PVal) :=
  match pget? state outerKey with
  | Option.none => some Option.none
  | some (.dict g) =>
    if hasKey g innerKey then some (some (pget g innerKey)) else some Option.none
  | some (.list xs) =>
    if xs.any (fun e => pyEq e (.str innerKey)) then Option.none else some Option.none
  | some (.str s) =>
    if occursIn innerKey.toList s.toList then Option.none else some Option.none
  | some _ => Option.none

/-- The collection-selection pattern of `_normalize_state`: the top-level
key, else the nested key, else the default. -/
def select_coll (state : List (String × PVal)) (key outerKey innerKey : String)
    (dflt : PVal) : Option PVal :=
  if hasKey state key then some (pget state key)
  else
    match select_nested state outerKey innerKey with
    | Option.none => Option.none
    | some (some v) => some v
    | some Option.none => some dflt

/-- `_normalize_state`: select and normalize zones, incidents, drones,
traffic and infrastructure, producing the canonical five-entry state
dict. -/
def normalize_state (state : List (String × PVal)) : Option (List (String × PVal)) := do
  let zonesV ← select_coll state "zones" "grid" "zones" (.dict [])
  let zs ← normalize_zones zonesV
  let incV ← select_coll state "incidents" "emergency" "incidents" (.list [])
  let inc ← normalize_incidents incV
  let droV ← select_coll state "drones" "emergency" "drones" (.list [])
  let dro ← normalize_drones droV
  let traV ←
    if hasKey state "traffic" then some (pget state "traffic")
    else if hasKey state "traffic_management" then some (pget state "traffic_management")
    else some (.dict [])
  let tra ← normalize_traffic traV
  let infV ← select_coll state "infrastructure" "grid" "infrastructure" (.dict [])
  some [("zones", .dict zs), ("incidents", inc), ("drones", dro),
        ("traffic", .dict tra), ("infrastructure", infV)]

/-! ## Specification-side predicates and reference definitions -/

/-- The total grid capacity a state sums to. -/
noncomputable def total_capacity (s : CState) : ℝ :=
  (s.zones.map (fun z => z.capacity_kw)).sum

/-- The load ratio `total_load / total_capacity` of a state. -/
noncomputable def load_ratio (s : CState) : ℝ :=
  (s.zones.map (fun z => z.current_load_kw)).sum / total_capacity s

/-- A normalized state whose fields lie in their declared ranges
(stability, urgency and congestion in `[0, 1]`, capacities and loads
nonnegative). -/
def ValidState (s : CState) : Prop :=
  (∀ z ∈ s.zones, 0 ≤ z.stability ∧ z.stability ≤ 1 ∧
      0 ≤ z.capacity_kw ∧ 0 ≤ z.current_load_kw) ∧
  (∀ i ∈ s.incidents, 0 ≤ i.urgency ∧ i.urgency ≤ 1) ∧
  (∀ t ∈ s.traffic, 0 ≤ t.congestion_level ∧ t.congestion_level ≤ 1)

/-- A metric whose target shape fits its type, so that
`_calculate_metric_progress` does not raise on it. -/
def TargetCompatible (m : MetricDef) : Prop :=
  match m.type, m.target with
  | .threshold, .scalar _ => True
  | .threshold, .range _ _ => False
  | .range, .range _ _ => True
  | .range, .scalar _ => False
  | _, _ => True

/-- A metric that produces a progress entry: a threshold metric with a
scalar target or a range metric with a range target. -/
def ProgressibleMetric (m : MetricDef) : Prop :=
  (m.type = .threshold ∧ ∃ x, m.target = .scalar x) ∨
  (m.type = .range ∧ ∃ lo hi, m.target = .range lo hi)

/-- Threshold targets of a metric are nonnegative. -/
def ThresholdNonneg (m : MetricDef) : Prop :=
  ∀ x, m.target = .scalar x → 0 ≤ x

/-- The per-metric progress value as the specification describes it,
computed directly from the metric and its current value. -/
noncomputable def progress_value (m : MetricDef) (current : ℝ) : ℝ :=
  match m.type, m.target with
  | .threshold, .scalar t => min 1.0 (if t ≠ 0 then current / t else 0)
  | .range, .range lo hi => if lo ≤ current ∧ current ≤ hi then 1.0 else 0.0
  | _, _ => 0

/-- The specification's weight-weighted mean of the per-metric progress
values. -/
noncomputable def spec_weighted_mean (cfg : EvalConfig) (s : CState) : ℝ :=
  ((cfg.metrics.map (fun m =>
      progress_value m (metric_calculator m.calculation s) * m.weight)).sum) /
    ((cfg.metrics.map (fun m => m.weight)).sum)

/-- The specification's optimal-match score: the fraction of declared
optimal commands with at least one matching issued command (0.0 with no
optimal commands). -/
noncomputable def spec_match_fraction (cfg : EvalConfig) (cmds : List PCmd) : ℝ :=
  if cfg.optimal_commands.isEmpty then 0
  else ((cfg.optimal_commands.filter (fun opt =>
      cmds.any (fun c => commands_match c opt.command))).length : ℝ) /
    cfg.optimal_commands.length

/-- A stored normalized value that a second normalization pass would
rebuild unchanged through `x or d.get(alias, 0.0)`: truthy, or the
numeric zero default itself. -/
def falsy_ok_num (v : PVal) : Bool :=
  truthy v ||
    (match v with
     | .num q => q = 0
     | _ => false)

/-- Like `falsy_ok_num` for the boolean `False` default of `is_blocked`. -/
def falsy_ok_bool (v : PVal) : Bool :=
  truthy v ||
    (match v with
     | .bool b => !b
     | _ => false)

/-- The condition under which normalization is idempotent on its own
output: every normalized zone's `capacity_kw`/`current_load_kw` and every
normalized traffic sector's `congestion_level`/`is_blocked` is either
truthy or exactly the rebuild default (`0`/`False`). -/
def norm_idem_ok (d : List (String × PVal)) : Bool :=
  (match pget? d "zones" with
   | some (.dict zs) =>
     zs.all (fun p =>
       match p.2 with
       | .dict zf => falsy_ok_num (pget zf "capacity_kw") &&
           falsy_ok_num (pget zf "current_load_kw")
       | _ => true)
   | _ => true) &&
  (match pget? d "traffic" with
   | some (.dict ts) =>
     ts.all (fun p =>
       match p.2 with
       | .dict tf => falsy_ok_num (pget tf "congestion_level") &&
           falsy_ok_bool (pget tf "is_blocked")
       | _ => true)
   | _ => true)

/-! ## Concrete example inputs -/

/-- The state with every collection empty. -/
def emptyState : CState :=
  { zones := [], incidents := [], drones := [], traffic := [], infrastructure := [] }

/-- A single non-critical zone with the given stability, capacity and
load. -/
def singleZoneState (stability capacity load : ℝ) : CState :=
  { zones := [{ zone_id := "zone_a", stability := stability, capacity_kw := capacity,
                current_load_kw := load, is_critical := false, status := "normal" }],
    incidents := [], drones := [], traffic := [], infrastructure := [] }

/-- A config with the single heat-wave-style grid-stability threshold
metric and no optimal commands. -/
def cfgGridOnly : EvalConfig :=
  { metrics := [{ name := "grid_stability", type := .threshold, target := .scalar 0.7,
                  weight := 1, service := "grid", calculation := "grid_stability" }],
    optimal_commands := [] }

/-- A config with a range metric whose target is a scalar: unpacking it
in `_calculate_metric_progress` raises `TypeError`. -/
def cfgBadTarget : EvalConfig :=
  { metrics := [{ name := "grid_stability", type := .range, target := .scalar 0.7,
                  weight := 1, service := "grid", calculation := "grid_stability" }],
    optimal_commands := [] }

/-- The three optimal commands of `HEAT_WAVE_OPTIMAL_COMMANDS`. -/
def heatWaveOptimal : List CmdImpact :=
  [{ command := optimalAdjustZone,
     affected_metrics := ["grid_stability", "power_conservation"],
     expected_impact := [("grid_stability", 0.1), ("power_conservation", 0.05)] },
   { command := { service := some (.str "grid"), action := some (.str "adjust_zone"),
                  parameters := [("zone_id", .str "zone_b"), ("capacity", .num (7/10))] },
     affected_metrics := ["grid_stability", "power_conservation"],
     expected_impact := [("grid_stability", 0.08), ("power_conservation", 0.07)] },
   { command := { service := some (.str "emergency"), action := some (.str "assign_drone"),
                  parameters := [("drone_id", .str "drone_1"),
                                 ("incident_id", .str "incident_1")] },
     affected_metrics := ["incident_response"],
     expected_impact := [("incident_response", 0.2)] }]

/-- The heat-wave scenario evaluation config
(`create_heat_wave_scenario_evaluation`). -/
def heatWaveConfig : EvalConfig :=
  { metrics :=
      [{ name := "grid_stability", type := .threshold, target := .scalar 0.8,
         weight := 0.4, service := "grid", calculation := "grid_stability" },
       { name := "power_conservation", type := .threshold, target := .scalar 0.2,
         weight := 0.3, service := "grid", calculation := "power_conservation" },
       { name := "incident_response", type := .threshold, target := .scalar 0.9,
         weight := 0.3, service := "emergency", calculation := "incident_response" }],
    optimal_commands := heatWaveOptimal }

/-- The command dict with no entries at all ("malformed": no service, no
action). -/
def emptyCmd : PCmd := {}

/-- A fallback-extracted command as the evaluator receives it:
`(emergency, assign_drone)` with the lone parameter `fallback: True`. -/
def fallbackAssignPCmd : PCmd :=
  { service := some (.str "emergency"), action := some (.str "assign_drone"),
    parameters := [("fallback", .bool true)] }

/-- One structured `zone_adjustments` entry for Z1 at capacity 0.8. -/
def z1Entry : PVal :=
  .dict [("zone_id", .str "Z1"), ("capacity", .num (8/10))]

/-- A task output whose structured dict repeats the same zone adjustment
twice. -/
def dupTask : TaskOutput :=
  { dict := [("zone_adjustments", .list [z1Entry, z1Entry])], text := "" }

/-- The command the Z1 entry converts to. -/
def cmdZ1 : Command :=
  { service := .grid, action := "adjust_zone",
    parameters := [("zone_id", .str "Z1"), ("capacity", .num (8/10))] }

/-- A task output with no structured plan keys whose free text mentions
the drone pattern twice. -/
def droneTextTask : TaskOutput :=
  { dict := [("summary", .str "report")],
    text := "Drone D1 assigned. Drone D2 assigned." }

/-- The fallback command for `(emergency, assign_drone)`. -/
def fallbackDroneCmd : Command :=
  { service := .emergency, action := "assign_drone",
    parameters := [("fallback", .bool true)] }

/-- A normalized collection dict every one of whose values was built by
the collection's entry constructor under its own key. -/
def Shaped (mk : String → List (String × PVal) → PVal)
    (l : List (String × PVal)) : Prop :=
  (l.map Prod.fst).Nodup ∧ ∀ p ∈ l, ∃ orig, p.2 = mk p.1 orig

/-- A raw state whose zone stores `capacity: None`: the first pass keeps
the falsy `None` as `capacity_kw`, the second pass replaces it by `0.0`. -/
def rawCapNone : List (String × PVal) :=
  [("zones", .dict [("z1", .dict [("capacity", PVal.none)])])]

/-- What `rawCapNone` normalizes to: `capacity_kw` holds the stored
`None`. -/
def rawCapNorm1 : List (String × PVal) :=
  [("zones", .dict [("z1", .dict
      [("id", .str "z1"), ("stability", .num 0), ("capacity_kw", PVal.none),
       ("current_load_kw", .num 0), ("is_critical", .bool false),
       ("status", .str "normal"), ("zone_id", .str "z1")])]),
   ("incidents", .dict []), ("drones", .dict []), ("traffic", .dict []),
   ("infrastructure", .dict [])]

/-- What `rawCapNorm1` normalizes to: the falsy `None` under
`capacity_kw` has become the rebuild default `0.0`. -/
def rawCapNorm2 : List (String × PVal) :=
  [("zones", .dict [("z1", .dict
      [("id", .str "z1"), ("stability", .num 0), ("capacity_kw", .num 0),
       ("current_load_kw", .num 0), ("is_critical", .bool false),
       ("status", .str "normal"), ("zone_id", .str "z1")])]),
   ("incidents", .dict []), ("drones", .dict []), ("traffic", .dict []),
   ("infrastructure", .dict [])]

/-- A raw state with one zone of truthy capacity 5. -/
def capFiveRaw : List (String × PVal) :=
  [("zones", .dict [("z1", .dict [("capacity", .num 5)])])]

/-- What `capFiveRaw` normalizes to: a fixed point of the normalizer. -/
def capFiveNorm : List (String × PVal) :=
  [("zones", .dict [("z1", .dict
      [("id", .str "z1"), ("stability", .num 0), ("capacity_kw", .num 5),
       ("current_load_kw", .num 0), ("is_critical", .bool false),
       ("status", .str "normal"), ("zone_id", .str "z1")])]),
   ("incidents", .dict []), ("drones", .dict []), ("traffic", .dict []),
   ("infrastructure", .dict [])]

/-- An incident with the given status and assigned drone. -/
def mkIncident (status : String) (drone : Option String) : Incident :=
  { status := status, assigned_drone := drone, zone := Option.none, urgency := 0.5 }

/-- A state with one unassigned incident. -/
def oneUnassignedState : CState :=
  { zones := [], incidents := [mkIncident "active" Option.none], drones := [],
    traffic := [], infrastructure := [] }

/-- A state with one drone-assigned incident and one traffic sector at
congestion 0.5. -/
def oneAssignedState : CState :=
  { zones := [], incidents := [mkIncident "assigned" (some "drone_1")], drones := [],
    traffic := [{ congestion_level := 0.5, is_blocked := false }], infrastructure := [] }


/-! ## General list arithmetic lemmas -/

theorem avg_nonneg (l : List ℝ) (h : ∀ x ∈ l, 0 ≤ x) : 0 ≤ l.sum / l.length :=
  div_nonneg (List.sum_nonneg h) (Nat.cast_nonneg _)

theorem avg_le_one (l : List ℝ) (h : ∀ x ∈ l, x ≤ 1) : l.sum / l.length ≤ 1 := by
  rcases eq_or_ne l [] with rfl | hne
  · simp
  · have hlen : (0 : ℝ) < l.length := by
      have := List.length_pos.mpr hne
      exact_mod_cast this
    rw [div_le_one hlen]
    calc l.sum ≤ l.length • (1 : ℝ) := List.sum_le_card_nsmul l 1 h
    _ = l.length := by simp

theorem map_sum_nonneg {α : Type} (l : List α) (f : α → ℝ) (h : ∀ x ∈ l, 0 ≤ f x) :
    0 ≤ (l.map f).sum := by
  apply List.sum_nonneg
  intro x hx
  obtain ⟨a, ha, rfl⟩ := List.mem_map.mp hx
  exact h a ha

theorem map_avg_mem_unit {α : Type} (l : List α) (f : α → ℝ)
    (h : ∀ x ∈ l, 0 ≤ f x ∧ f x ≤ 1) :
    0 ≤ (l.map f).sum / l.length ∧ (l.map f).sum / l.length ≤ 1 := by
  constructor
  · exact div_nonneg (map_sum_nonneg l f (fun x hx => (h x hx).1)) (Nat.cast_nonneg _)
  · rcases eq_or_ne l [] with rfl | hne
    · simp
    · have hlen : (0 : ℝ) < l.length := by
        have := List.length_pos.mpr hne
        exact_mod_cast this
      rw [div_le_one hlen]
      calc (l.map f).sum ≤ (l.map f).length • (1 : ℝ) :=
        List.sum_le_card_nsmul _ 1 (by
          intro x hx
          obtain ⟨a, ha, rfl⟩ := List.mem_map.mp hx
          exact (h a ha).2)
      _ = l.length := by simp

theorem length_filter_mono {α : Type} (l : List α) (p q : α → Bool)
    (h : ∀ x ∈ l, p x = true → q x = true) :
    (l.filter p).length ≤ (l.filter q).length := by
  induction l with
  | nil => simp
  | cons a t ih =>
    have ih' := ih (fun x hx => h x (List.mem_cons_of_mem a hx))
    by_cases hp : p a = true
    · rw [List.filter_cons_of_pos hp, List.filter_cons_of_pos (h a (List.mem_cons_self a t) hp)]
      simpa using ih'
    · rw [List.filter_cons_of_neg hp]
      by_cases hq : q a = true
      · rw [List.filter_cons_of_pos hq]
        exact le_trans ih' (by simp)
      · rw [List.filter_cons_of_neg hq]
        exact ih'

theorem length_filter_disjoint_le {α : Type} (l : List α) (p q : α → Bool)
    (h : ∀ x ∈ l, ¬ (p x = true ∧ q x = true)) :
    (l.filter p).length + (l.filter q).length ≤ l.length := by
  induction l with
  | nil => simp
  | cons a t ih =>
    have ih' := ih (fun x hx => h x (List.mem_cons_of_mem a hx))
    have ha := h a (List.mem_cons_self a t)
    by_cases hp : p a = true
    · have hq : ¬ q a = true := fun hq => ha ⟨hp, hq⟩
      rw [List.filter_cons_of_pos hp, List.filter_cons_of_neg hq]
      simp only [List.length_cons]
      omega
    · rw [List.filter_cons_of_neg hp]
      by_cases hq : q a = true
      · rw [List.filter_cons_of_pos hq]
        simp only [List.length_cons]
        omega
      · rw [List.filter_cons_of_neg hq]
        simp only [List.length_cons]
        omega

/-! ## Range bounds of the metric calculators -/

theorem grid_stability_mem_unit (s : CState) (hv : ValidState s) :
    0 ≤ calculate_grid_stability s ∧ calculate_grid_stability s ≤ 1 := by
  simp only [calculate_grid_stability]
  split_ifs with h1 h2
  · norm_num
  · constructor
    · apply div_nonneg _ h2.le
      apply map_sum_nonneg
      intro z hzm
      have h0 := (hv.1 z hzm).1
      split_ifs <;> exact mul_nonneg h0 (by norm_num)
    · rw [div_le_one h2]
      apply List.sum_le_sum
      intro z hzm
      have hb := (hv.1 z hzm).2.1
      split_ifs <;> exact mul_le_of_le_one_left (by norm_num) hb
  · norm_num

theorem power_conservation_mem_unit (s : CState) :
    0 ≤ calculate_power_conservation s ∧ calculate_power_conservation s ≤ 1 := by
  simp only [calculate_power_conservation]
  constructor <;> split_ifs <;>
    first
      | norm_num
      | exact le_max_left _ _
      | exact max_le (by norm_num) (min_le_left _ _)

theorem critical_infrastructure_mem_unit (s : CState) (hv : ValidState s) :
    0 ≤ calculate_critical_infrastructure s ∧ calculate_critical_infrastructure s ≤ 1 := by
  simp only [calculate_critical_infrastructure]
  have hA := map_avg_mem_unit (s.zones.filter (fun z => z.is_critical)) (fun z => z.stability)
    (by
      intro z hz
      have hz' : z ∈ s.zones := (List.mem_filter.mp hz).1
      exact ⟨(hv.1 z hz').1, (hv.1 z hz').2.1⟩)
  have hdisj := length_filter_disjoint_le s.infrastructure
    (fun i => i.level == "critical") (fun i => i.level == "high")
    (by
      intro i _ ⟨hc, hh⟩
      simp only [beq_iff_eq] at hc hh
      rw [hc] at hh
      exact absurd hh (by decide))
  have hBnum : (0 : ℝ) ≤
      ((s.infrastructure.filter (fun i => i.level == "critical")).length : ℝ) * 1.0 +
      ((s.infrastructure.filter (fun i => i.level == "high")).length : ℝ) * 0.7 := by
    positivity
  have hBle : ((s.infrastructure.filter (fun i => i.level == "critical")).length : ℝ) * 1.0 +
      ((s.infrastructure.filter (fun i => i.level == "high")).length : ℝ) * 0.7 ≤
      (s.infrastructure.length : ℝ) := by
    have hcast : ((s.infrastructure.filter (fun i => i.level == "critical")).length : ℝ) +
        ((s.infrastructure.filter (fun i => i.level == "high")).length : ℝ) ≤
        (s.infrastructure.length : ℝ) := by exact_mod_cast hdisj
    nlinarith [Nat.cast_nonneg (α := ℝ)
      (s.infrastructure.filter (fun i => i.level == "high")).length]
  have hB : (0 : ℝ) ≤
      (((s.infrastructure.filter (fun i => i.level == "critical")).length : ℝ) * 1.0 +
        ((s.infrastructure.filter (fun i => i.level == "high")).length : ℝ) * 0.7) /
        (s.infrastructure.length : ℝ) ∧
      (((s.infrastructure.filter (fun i => i.level == "critical")).length : ℝ) * 1.0 +
        ((s.infrastructure.filter (fun i => i.level == "high")).length : ℝ) * 0.7) /
        (s.infrastructure.length : ℝ) ≤ 1 := by
    constructor
    · exact div_nonneg hBnum (Nat.cast_nonneg _)
    · rcases eq_or_ne (s.infrastructure.length : ℝ) 0 with hz | hz
      · rw [hz, div_zero]
        norm_num
      · rw [div_le_one (lt_of_le_of_ne (Nat.cast_nonneg _) (Ne.symm hz))]
        exact hBle
  have hrat : (0 : ℝ) ≤ ((s.incidents.filter (fun inc =>
      incident_in_critical_zone
        ((s.zones.filter (fun z => z.is_critical)).map (fun z => z.zone_id)) inc &&
      (inc.status == "active" || inc.status == "assigned"))).length : ℝ) /
      (s.incidents.length : ℝ) :=
    div_nonneg (Nat.cast_nonneg _) (Nat.cast_nonneg _)
  have hmax : (0 : ℝ) ≤ max 0.5 (1.0 - ((s.incidents.filter (fun inc =>
      incident_in_critical_zone
        ((s.zones.filter (fun z => z.is_critical)).map (fun z => z.zone_id)) inc &&
      (inc.status == "active" || inc.status == "assigned"))).length : ℝ) /
      (s.incidents.length : ℝ) * 0.4) ∧
      max 0.5 (1.0 - ((s.incidents.filter (fun inc =>
      incident_in_critical_zone
        ((s.zones.filter (fun z => z.is_critical)).map (fun z => z.zone_id)) inc &&
      (inc.status == "active" || inc.status == "assigned"))).length : ℝ) /
      (s.incidents.length : ℝ) * 0.4) ≤ 1 := by
    constructor
    · exact le_trans (by norm_num) (le_max_left _ _)
    · apply max_le (by norm_num)
      nlinarith
  split_ifs
  all_goals constructor
  all_goals linarith [hA.1, hA.2, hB.1, hB.2, hmax.1, hmax.2]

theorem incident_response_mem_unit (s : CState) :
    0 ≤ calculate_incident_response s ∧ calculate_incident_response s ≤ 1 := by
  simp only [calculate_incident_response]
  constructor <;> split_ifs <;>
    first
      | norm_num
      | exact le_max_left _ _
      | exact max_le (by norm_num) (min_le_left _ _)

theorem incident_resolution_mem_unit (s : CState) :
    0 ≤ calculate_incident_resolution s ∧ calculate_incident_resolution s ≤ 1 := by
  simp only [calculate_incident_resolution]
  split_ifs with h1
  · norm_num
  · have hlen : (0 : ℝ) < s.incidents.length := by
      have : s.incidents ≠ [] := by simpa [List.isEmpty_iff] using h1
      exact_mod_cast List.length_pos.mpr this
    have hdisj := length_filter_disjoint_le s.incidents
      (fun inc => inc.status == "resolved") (fun inc => inc.status == "in_progress")
      (by
        intro i _ ⟨hr, hp⟩
        simp only [beq_iff_eq] at hr hp
        rw [hr] at hp
        exact absurd hp (by decide))
    constructor
    · positivity
    · rw [div_le_one hlen]
      have hc : ((s.incidents.filter (fun inc => inc.status == "resolved")).length : ℝ) +
          ((s.incidents.filter (fun inc => inc.status == "in_progress")).length : ℝ) ≤
          (s.incidents.length : ℝ) := by exact_mod_cast hdisj
      nlinarith [Nat.cast_nonneg (α := ℝ)
        (s.incidents.filter (fun inc => inc.status == "in_progress")).length]

theorem drone_utilization_mem_unit (s : CState) :
    0 ≤ calculate_drone_utilization s ∧ calculate_drone_utilization s ≤ 1 := by
  simp only [calculate_drone_utilization]
  split_ifs with h1 h2
  · norm_num
  · norm_num
  · have hmono := length_filter_mono s.drones
      (fun d => d.status == "assigned" || d.status == "en_route" || d.status == "on_site")
      (fun d => !(d.status == "disabled"))
      (by
        intro d _ hp
        simp only [Bool.or_eq_true, beq_iff_eq] at hp
        simp only [Bool.not_eq_true', beq_eq_false_iff_ne]
        rcases hp with (h | h) | h <;> rw [h] <;> decide)
    have hpos : (0 : ℝ) <
        ((s.drones.filter (fun d => !(d.status == "disabled"))).length : ℝ) := by
      have : 0 < (s.drones.filter (fun d => !(d.status == "disabled"))).length :=
        Nat.pos_of_ne_zero h2
      exact_mod_cast this
    constructor
    · positivity
    · rw [div_le_one hpos]
      exact_mod_cast hmono

theorem response_time_mem_unit (s : CState) (hv : ValidState s) :
    0 ≤ calculate_response_time s ∧ calculate_response_time s ≤ 1 := by
  simp only [calculate_response_time]
  split_ifs with h1 h2 h3
  · norm_num
  · norm_num
  · have havg : 0 ≤ (s.traffic.map (fun t => t.congestion_level)).sum / s.traffic.length := by
      apply div_nonneg _ (Nat.cast_nonneg _)
      apply map_sum_nonneg
      intro t ht
      exact (hv.2.2 t ht).1
    constructor
    · exact le_trans (by norm_num) (le_max_left 0.2 _)
    · apply max_le (by norm_num)
      nlinarith
  · norm_num

theorem traffic_flow_mem_unit (s : CState) :
    0 ≤ calculate_traffic_flow s ∧ calculate_traffic_flow s ≤ 1 := by
  simp only [calculate_traffic_flow]
  have hbase : 0 ≤ (s.traffic.map (fun sec =>
      if sec.is_blocked then (0.1 : ℝ)
      else max 0.1 (1.0 - sec.congestion_level ^ (1.5 : ℝ)))).sum / s.traffic.length := by
    apply div_nonneg _ (Nat.cast_nonneg _)
    apply List.sum_nonneg
    intro x hx
    obtain ⟨a, ha, rfl⟩ := List.mem_map.mp hx
    split_ifs
    · norm_num
    · exact le_trans (by norm_num) (le_max_left _ _)
  split_ifs with h1 h2
  · norm_num
  · constructor
    · refine le_min (by norm_num) ?_
      apply add_nonneg hbase
      exact le_min (by norm_num) (mul_nonneg hbase (by norm_num))
    · exact le_trans (min_le_left _ _) (by norm_num)
  · refine ⟨le_min (by norm_num) hbase, le_trans (min_le_left _ _) (by norm_num)⟩

theorem emergency_routing_mem_unit (s : CState) :
    0 ≤ calculate_emergency_routing s ∧ calculate_emergency_routing s ≤ 1 := by
  simp only [calculate_emergency_routing]
  have hpen : (0 : ℝ) ≤ max 0.1 ((max 0.2 (1.0 -
      ((s.traffic.map (fun t => t.congestion_level)).sum / s.traffic.length) * 0.8)) -
      (((s.traffic.filter (fun t => t.is_blocked)).length : ℝ) / s.traffic.length) * 0.3) :=
    le_trans (by norm_num) (le_max_left _ _)
  split_ifs with h1 h2 h3
  · norm_num
  · norm_num
  · constructor
    · refine le_min (by norm_num) ?_
      apply add_nonneg hpen
      apply mul_nonneg _ (by norm_num)
      exact div_nonneg (Nat.cast_nonneg _) (Nat.cast_nonneg _)
    · exact le_trans (min_le_left _ _) (by norm_num)
  · exact ⟨le_min (by norm_num) hpen, le_trans (min_le_left _ _) (by norm_num)⟩

theorem congestion_management_mem_unit (s : CState) :
    0 ≤ calculate_congestion_management s ∧ calculate_congestion_management s ≤ 1 := by
  simp only [calculate_congestion_management]
  have hscore : (0 : ℝ) ≤
      (((s.traffic.filter (fun t => decide (t.congestion_level ≤ 0.2))).length : ℝ) * 1.0 +
        ((s.traffic.filter (fun t =>
          decide (0.2 < t.congestion_level ∧ t.congestion_level ≤ 0.4))).length : ℝ) * 0.8 +
        ((s.traffic.filter (fun t =>
          decide (0.4 < t.congestion_level ∧ t.congestion_level ≤ 0.6))).length : ℝ) * 0.6 +
        ((s.traffic.filter (fun t =>
          decide (0.6 < t.congestion_level ∧ t.congestion_level ≤ 0.8))).length : ℝ) * 0.3 +
        ((s.traffic.filter (fun t => decide (0.8 < t.congestion_level))).length : ℝ) * 0.0) /
        (s.traffic.length : ℝ) := by
    apply div_nonneg _ (Nat.cast_nonneg _)
    positivity
  split_ifs with h1 h2
  · norm_num
  · constructor
    · refine le_min (by norm_num) ?_
      apply add_nonneg hscore
      refine le_min (by norm_num) ?_
      apply mul_nonneg _ (by norm_num)
      exact div_nonneg (Nat.cast_nonneg _) (Nat.cast_nonneg _)
    · exact le_trans (min_le_left _ _) (by norm_num)
  · exact ⟨le_min (by norm_num) hscore, le_trans (min_le_left _ _) (by norm_num)⟩

theorem coordination_factor1_mem (s : CState) (hv : ValidState s) (x : ℝ)
    (hx : coordination_factor1 s = some x) : 0 ≤ x ∧ x ≤ 1 := by
  simp only [coordination_factor1] at hx
  split_ifs at hx with h1 h2 h3 h4
  · obtain rfl := Option.some.inj hx
    apply map_avg_mem_unit
    intro z hz
    have hz' : z ∈ s.zones := (List.mem_filter.mp (List.mem_filter.mp hz).1).1
    exact ⟨(hv.1 z hz').1, (hv.1 z hz').2.1⟩
  · obtain rfl := Option.some.inj hx
    norm_num
  · obtain rfl := Option.some.inj hx
    norm_num

theorem coordination_factor2_mem (s : CState) (hv : ValidState s) (x : ℝ)
    (hx : coordination_factor2 s = some x) : 0 ≤ x ∧ x ≤ 1 := by
  simp only [coordination_factor2] at hx
  split_ifs at hx with h1 h2
  · obtain rfl := Option.some.inj hx
    have havg : 0 ≤ (s.traffic.map (fun t => t.congestion_level)).sum / s.traffic.length := by
      apply div_nonneg _ (Nat.cast_nonneg _)
      apply map_sum_nonneg
      intro t ht
      exact (hv.2.2 t ht).1
    constructor
    · exact le_trans (by norm_num) (le_max_left _ _)
    · apply max_le (by norm_num)
      nlinarith
  · obtain rfl := Option.some.inj hx
    norm_num

theorem coordination_factor3_mem (s : CState) (hv : ValidState s) (x : ℝ)
    (hx : coordination_factor3 s = some x) : 0 ≤ x ∧ x ≤ 1 := by
  simp only [coordination_factor3] at hx
  split_ifs at hx with h1
  · obtain rfl := Option.some.inj hx
    have hstab := map_avg_mem_unit s.zones (fun z => z.stability)
      (fun z hz => ⟨(hv.1 z hz).1, (hv.1 z hz).2.1⟩)
    have hcong := map_avg_mem_unit s.traffic (fun t => t.congestion_level)
      (fun t ht => (hv.2.2 t ht))
    constructor <;> nlinarith [hstab.1, hstab.2, hcong.1, hcong.2]

theorem overall_coordination_mem_unit (s : CState) (hv : ValidState s) :
    0 ≤ calculate_overall_coordination s ∧ calculate_overall_coordination s ≤ 1 := by
  simp only [calculate_overall_coordination]
  have hmem : ∀ x ∈ [coordination_factor1 s, coordination_factor2 s,
      coordination_factor3 s].filterMap id, 0 ≤ x ∧ x ≤ 1 := by
    intro x hx
    obtain ⟨o, ho, hid⟩ := List.mem_filterMap.mp hx
    simp only [id_eq] at hid
    subst hid
    simp only [List.mem_cons, List.mem_singleton, List.not_mem_nil, or_false] at ho
    rcases ho with h | h | h
    · exact coordination_factor1_mem s hv x h.symm
    · exact coordination_factor2_mem s hv x h.symm
    · exact coordination_factor3_mem s hv x h.symm
  split_ifs with h1
  · norm_num
  · exact ⟨avg_nonneg _ (fun x hx => (hmem x hx).1), avg_le_one _ (fun x hx => (hmem x hx).2)⟩

theorem drone_efficiency_factor_mem (s : CState) (x : ℝ)
    (hx : drone_efficiency_factor s = some x) : 0 ≤ x ∧ x ≤ 1 := by
  simp only [drone_efficiency_factor] at hx
  have hu0 : (0 : ℝ) ≤ ((s.drones.filter (fun d =>
      d.status == "assigned" || d.status == "en_route" || d.status == "on_site")).length : ℝ) /
      ((s.drones.filter (fun d => !(d.status == "disabled"))).length : ℝ) :=
    div_nonneg (Nat.cast_nonneg _) (Nat.cast_nonneg _)
  split_ifs at hx with h1 h2 h3 h4
  · obtain rfl := Option.some.inj hx
    constructor
    · positivity
    · have hle : ((s.drones.filter (fun d =>
          d.status == "assigned" || d.status == "en_route" || d.status == "on_site")).length : ℝ) /
          ((s.drones.filter (fun d => !(d.status == "disabled"))).length : ℝ) / 0.7 ≤ 1 := by
        rw [div_le_one (by norm_num)]
        linarith
      calc _ ≤ (1 : ℝ) * 0.8 := by nlinarith [hu0]
      _ ≤ 1 := by norm_num
  · obtain rfl := Option.some.inj hx
    constructor <;> nlinarith
  · obtain rfl := Option.some.inj hx
    constructor
    · exact le_trans (by norm_num) (le_max_left _ _)
    · apply max_le (by norm_num)
      nlinarith

theorem resource_efficiency_mem_unit (s : CState) :
    0 ≤ calculate_resource_efficiency s ∧ calculate_resource_efficiency s ≤ 1 := by
  have hpc := power_conservation_mem_unit s
  have htf := traffic_flow_mem_unit s
  simp only [calculate_resource_efficiency]
  cases hdf : drone_efficiency_factor s with
  | none =>
    simp only [List.nil_append, List.isEmpty_cons, List.sum_cons, List.sum_nil,
      List.length_cons, List.length_nil]
    norm_num
    constructor <;> linarith [hpc.1, hpc.2, htf.1, htf.2]
  | some d =>
    have hd := drone_efficiency_factor_mem s d hdf
    simp only [List.cons_append, List.nil_append, List.isEmpty_cons, List.sum_cons,
      List.sum_nil, List.length_cons, List.length_nil]
    norm_num
    constructor <;> linarith [hpc.1, hpc.2, htf.1, htf.2, hd.1, hd.2]

/-! ## Claims C1, C3, C4, C7 -/

theorem param_entry_iff (params1 : List (String × PVal)) (kv : String × PVal) :
    ((match pget? params1 kv.1 with
      | Option.none => true
      | some v1 =>
        if isNumeric v1 ∧ isNumeric kv.2 then
          decide (|numVal v1 - numVal kv.2| / max |numVal kv.2| (1/10) ≤ 1/5)
        else
          lowerStr (pstr v1) = lowerStr (pstr kv.2)) = true) ↔
    (pget? params1 kv.1 = Option.none ∨
      (∃ v1, pget? params1 kv.1 = some v1 ∧
        ((isNumeric v1 = true ∧ isNumeric kv.2 = true ∧
            |numVal v1 - numVal kv.2| / max |numVal kv.2| (1/10) ≤ 1/5) ∨
         (¬ (isNumeric v1 = true ∧ isNumeric kv.2 = true) ∧
            lowerStr (pstr v1) = lowerStr (pstr kv.2))))) := by
  cases hv : pget? params1 kv.1 with
  | none => simp
  | some v1 =>
    show (if isNumeric v1 ∧ isNumeric kv.2 then _ else _) = true ↔ _
    by_cases hn : isNumeric v1 = true ∧ isNumeric kv.2 = true
    · rw [if_pos hn]
      constructor
      · intro h
        exact Or.inr ⟨v1, rfl, Or.inl ⟨hn.1, hn.2, of_decide_eq_true h⟩⟩
      · rintro (h | ⟨w, hw, hcase⟩)
        · cases h
        · cases hw
          rcases hcase with ⟨-, -, htol⟩ | ⟨hnot, -⟩
          · exact decide_eq_true htol
          · exact absurd hn hnot
    · rw [if_neg hn]
      constructor
      · intro h
        exact Or.inr ⟨v1, rfl, Or.inr ⟨hn, of_decide_eq_true h⟩⟩
      · rintro (h | ⟨w, hw, hcase⟩)
        · cases h
        · cases hw
          rcases hcase with ⟨h1, h2, -⟩ | ⟨-, hstr⟩
          · exact absurd ⟨h1, h2⟩ hn
          · exact decide_eq_true hstr

theorem commands_match_iff (c1 c2 : PCmd) :
    commands_match c1 c2 = true ↔ commands_match_spec c1 c2 := by
  by_cases hs : pyEq (c1.service.getD .none) (c2.service.getD .none) = true
  · by_cases ha : pyEq (c1.action.getD .none) (c2.action.getD .none) = true
    · have hcond : ¬ (¬ (pyEq (c1.service.getD .none) (c2.service.getD .none)) ∨
          ¬ (pyEq (c1.action.getD .none) (c2.action.getD .none))) := by
        push_neg
        exact ⟨hs, ha⟩
      by_cases he : c1.parameters.isEmpty ∨ c2.parameters.isEmpty
      · have hcm : commands_match c1 c2 = true := by
          unfold commands_match
          rw [if_neg hcond, if_pos he]
        rw [hcm]
        constructor
        · intro _
          refine ⟨hs, ha, ?_⟩
          rcases he with h | h
          · exact Or.inl (List.isEmpty_iff.mp h)
          · exact Or.inr (Or.inl (List.isEmpty_iff.mp h))
        · intro _
          rfl
      · unfold commands_match
        rw [if_neg hcond, if_neg he]
        simp only [not_or, List.isEmpty_iff] at he
        constructor
        · intro h
          refine ⟨hs, ha, Or.inr (Or.inr ?_)⟩
          intro kv hkv
          exact (param_entry_iff c1.parameters kv).mp (List.all_eq_true.mp h kv hkv)
        · rintro ⟨-, -, h | h | h⟩
          · exact absurd h he.1
          · exact absurd h he.2
          · refine List.all_eq_true.mpr ?_
            intro kv hkv
            exact (param_entry_iff c1.parameters kv).mpr (h kv hkv)
    · constructor
      · intro h
        exfalso
        unfold commands_match at h
        rw [if_pos (Or.inr ha)] at h
        exact Bool.false_ne_true h
      · rintro ⟨-, h, -⟩
        exact absurd h ha
  · constructor
    · intro h
      exfalso
      unfold commands_match at h
      rw [if_pos (Or.inl hs)] at h
      exact Bool.false_ne_true h
    · rintro ⟨h, -⟩
      exact absurd h hs

/-- Claim C1 (corrected): the command match predicate returns true exactly
when service and action compare equal, and either parameter map is empty
or every optimal-command parameter key is absent from the issued command,
numerically within 20% relative tolerance of `max(|optimal value|, 0.1)`,
or equal as a case-insensitive string.  The optimal
`adjust_zone(zone_id: zone_a, capacity: 0.8)` matches the issued
`adjust_zone(capacity: 0.82)` and also matches the issued
`adjust_zone(capacity: 0.95)`, whose relative deviation 0.15/0.8 = 18.75%
is inside the tolerance. -/
theorem commands_match_characterization :
    (∀ cmd1 cmd2 : PCmd, commands_match cmd1 cmd2 = true ↔ commands_match_spec cmd1 cmd2) ∧
    commands_match issuedAdjust82 optimalAdjustZone = true ∧
    commands_match issuedAdjust95 optimalAdjustZone = true := by
  refine ⟨commands_match_iff, ?_, ?_⟩ <;>
    · norm_num [commands_match, pyEq, optimalAdjustZone, issuedAdjust82, issuedAdjust95,
        pget?, isNumeric, numVal, List.find?, List.all, max_def, abs]
      decide

/-- Claim C1, counterexample to the claimed non-match: the issued
`adjust_zone(capacity: 0.95)` does match the optimal
`adjust_zone(capacity: 0.8)` under `_commands_match`, contrary to the
claim's tolerance example. -/
theorem commands_match_tolerance_example_refuted :
    commands_match issuedAdjust95 optimalAdjustZone = true := by
  norm_num [commands_match, pyEq, optimalAdjustZone, issuedAdjust95,
    pget?, isNumeric, numVal, List.find?, List.all, max_def, abs]
  decide

theorem power_clamped (s : CState) (hz : s.zones ≠ []) (hc : 0 < total_capacity s) :
    calculate_power_conservation s = max 0.0 (min 1.0 (power_score (load_ratio s))) := by
  unfold calculate_power_conservation
  rw [if_neg, if_neg]
  · rfl
  · exact hc.ne'
  · simp [List.isEmpty_iff, hz]

theorem power_score_antitone_pieces (r1 r2 : ℝ) (h12 : r1 ≤ r2)
    (h : (0 ≤ r1 ∧ r2 ≤ 0.6) ∨ (0.6 < r1 ∧ r2 ≤ 0.85) ∨ (0.85 ≤ r1 ∧ r2 ≤ 1)) :
    power_score r2 ≤ power_score r1 := by
  unfold power_score
  rcases h with ⟨ha, hb⟩ | ⟨ha, hb⟩ | ⟨ha, hb⟩ <;>
    split_ifs <;>
      first
        | linarith
        | (apply max_le <;> linarith)
        | (exact max_le_max le_rfl (by linarith))

/-- Claim C3 (corrected): as a function of the load ratio `r`, the
power-conservation score is non-increasing on each of the bands
`[0, 0.6]`, `(0.6, 0.85]` and `[0.85, 1]` (on the whole of `[0, 0.85]` it
is not monotone: the score jumps upward when `r` crosses 0.6). -/
theorem power_conservation_piecewise_antitone (s1 s2 : CState)
    (hz1 : s1.zones ≠ []) (hz2 : s2.zones ≠ [])
    (hc1 : 0 < total_capacity s1) (hc2 : 0 < total_capacity s2)
    (h12 : load_ratio s1 ≤ load_ratio s2)
    (h : (0 ≤ load_ratio s1 ∧ load_ratio s2 ≤ 0.6) ∨
         (0.6 < load_ratio s1 ∧ load_ratio s2 ≤ 0.85) ∨
         (0.85 ≤ load_ratio s1 ∧ load_ratio s2 ≤ 1)) :
    calculate_power_conservation s2 ≤ calculate_power_conservation s1 := by
  rw [power_clamped s1 hz1 hc1, power_clamped s2 hz2 hc2]
  exact max_le_max le_rfl (min_le_min le_rfl (power_score_antitone_pieces _ _ h12 h))

/-- Claim C3, counterexample: at load ratios 0 and 0.6 (both in
`[0, 0.85]`) the score falls from 0.9 to 0.6, so the score is not
non-decreasing in `r` on `[0, 0.85]`. -/
theorem power_conservation_not_monotone_low_band :
    load_ratio (singleZoneState 0.7 1 0) = 0 ∧
    load_ratio (singleZoneState 0.7 1 0.6) = 0.6 ∧
    calculate_power_conservation (singleZoneState 0.7 1 0) = 0.9 ∧
    calculate_power_conservation (singleZoneState 0.7 1 0.6) = 0.6 ∧
    ¬ (calculate_power_conservation (singleZoneState 0.7 1 0) ≤
        calculate_power_conservation (singleZoneState 0.7 1 0.6)) := by
  norm_num [load_ratio, total_capacity, calculate_power_conservation, power_score,
    singleZoneState, List.isEmpty_iff]

theorem power_conservation_piecewise_antitone_witness :
    calculate_power_conservation (singleZoneState 0.7 1 0.95) ≤
      calculate_power_conservation (singleZoneState 0.7 1 0.9) := by
  refine power_conservation_piecewise_antitone _ _
    (by simp [singleZoneState]) (by simp [singleZoneState])
    (by norm_num [total_capacity, singleZoneState])
    (by norm_num [total_capacity, singleZoneState])
    (by norm_num [load_ratio, total_capacity, singleZoneState])
    (Or.inr (Or.inr ⟨by norm_num [load_ratio, total_capacity, singleZoneState],
      by norm_num [load_ratio, total_capacity, singleZoneState]⟩))

/-- Claim C4: every one of the twelve metric calculators returns a value
in `[0, 1]` on every normalized state whose fields lie in their declared
ranges, empty collections included. -/
theorem metric_calculators_unit_range (s : CState) (hv : ValidState s) :
    (0 ≤ calculate_grid_stability s ∧ calculate_grid_stability s ≤ 1) ∧
    (0 ≤ calculate_power_conservation s ∧ calculate_power_conservation s ≤ 1) ∧
    (0 ≤ calculate_critical_infrastructure s ∧ calculate_critical_infrastructure s ≤ 1) ∧
    (0 ≤ calculate_incident_response s ∧ calculate_incident_response s ≤ 1) ∧
    (0 ≤ calculate_incident_resolution s ∧ calculate_incident_resolution s ≤ 1) ∧
    (0 ≤ calculate_drone_utilization s ∧ calculate_drone_utilization s ≤ 1) ∧
    (0 ≤ calculate_response_time s ∧ calculate_response_time s ≤ 1) ∧
    (0 ≤ calculate_traffic_flow s ∧ calculate_traffic_flow s ≤ 1) ∧
    (0 ≤ calculate_emergency_routing s ∧ calculate_emergency_routing s ≤ 1) ∧
    (0 ≤ calculate_congestion_management s ∧ calculate_congestion_management s ≤ 1) ∧
    (0 ≤ calculate_overall_coordination s ∧ calculate_overall_coordination s ≤ 1) ∧
    (0 ≤ calculate_resource_efficiency s ∧ calculate_resource_efficiency s ≤ 1) :=
  ⟨grid_stability_mem_unit s hv, power_conservation_mem_unit s,
    critical_infrastructure_mem_unit s hv, incident_response_mem_unit s,
    incident_resolution_mem_unit s, drone_utilization_mem_unit s,
    response_time_mem_unit s hv, traffic_flow_mem_unit s,
    emergency_routing_mem_unit s, congestion_management_mem_unit s,
    overall_coordination_mem_unit s hv, resource_efficiency_mem_unit s⟩

theorem metric_calculators_unit_range_witness :
    ValidState emptyState ∧
    (0 ≤ calculate_grid_stability emptyState ∧ calculate_grid_stability emptyState ≤ 1) ∧
    (0 ≤ calculate_resource_efficiency emptyState ∧
      calculate_resource_efficiency emptyState ≤ 1) := by
  have hval : ValidState emptyState := by
    refine ⟨?_, ?_, ?_⟩ <;> simp [emptyState]
  have h := metric_calculators_unit_range emptyState hval
  exact ⟨hval, h.1, h.2.2.2.2.2.2.2.2.2.2.2⟩

/-- Claim C7 (corrected): the response-time calculator returns 1.0 when
there are no incidents at all; it returns 0 when incidents exist but none
has a drone assigned; with at least one drone-assigned incident it
returns base 0.8 reduced by 0.3 times the average traffic congestion with
floor 0.2, and the unreduced 0.8 with no traffic data. -/
theorem response_time_spec :
    (∀ s : CState, s.incidents = [] → calculate_response_time s = 1) ∧
    (∀ s : CState, s.incidents ≠ [] →
      (∀ i ∈ s.incidents, i.assigned_drone = Option.none) →
      calculate_response_time s = 0) ∧
    (∀ s : CState, (∃ i ∈ s.incidents, i.assigned_drone.isSome) →
      (s.traffic = [] → calculate_response_time s = 0.8) ∧
      (s.traffic ≠ [] → calculate_response_time s =
        max 0.2 (0.8 -
          ((s.traffic.map (fun t => t.congestion_level)).sum / s.traffic.length) * 0.3))) := by
  refine ⟨?_, ?_, ?_⟩
  · intro s h
    simp [calculate_response_time, h]
    norm_num
  · intro s h hall
    have hfil : s.incidents.filter (fun inc => inc.assigned_drone.isSome) = [] := by
      rw [List.filter_eq_nil_iff]
      intro i hi
      simp [hall i hi]
    simp [calculate_response_time, List.isEmpty_iff, h, hfil]
    norm_num
  · intro s ⟨i, hi, hsome⟩
    have hne : s.incidents ≠ [] := by
      intro hcon
      rw [hcon] at hi
      cases hi
    have hfil : s.incidents.filter (fun inc => inc.assigned_drone.isSome) ≠ [] := by
      intro hcon
      have := List.filter_eq_nil_iff.mp hcon i hi
      simp [hsome] at this
    constructor
    · intro ht
      simp [calculate_response_time, List.isEmpty_iff, hne, hfil, ht]
    · intro ht
      simp [calculate_response_time, List.isEmpty_iff, hne, hfil, ht]

/-- Claim C7, counterexample: in the empty state no incident has a drone
assigned, yet the calculator returns 1.0, not the claimed 0. -/
theorem response_time_zero_claim_refuted :
    calculate_response_time emptyState = 1 ∧ (1 : ℝ) ≠ 0 := by
  refine ⟨?_, one_ne_zero⟩
  simp [calculate_response_time, emptyState]
  norm_num

theorem response_time_spec_witness :
    calculate_response_time oneAssignedState = max 0.2 (0.8 - (0.5 / 1) * 0.3) ∧
    calculate_response_time oneUnassignedState = 0 := by
  constructor
  · have h := (response_time_spec.2.2 oneAssignedState
      ⟨mkIncident "assigned" (some "drone_1"), by simp [oneAssignedState], rfl⟩).2
      (by simp [oneAssignedState])
    rw [h]
    norm_num [oneAssignedState]
  · exact response_time_spec.2.1 oneUnassignedState (by simp [oneUnassignedState])
      (by intro i hi; simp [oneUnassignedState] at hi; simp [hi, mkIncident])


/-! ## Ordered-dict lemmas -/

theorem dinsert_eq_append {α : Type} (k : String) (v : α) (l : List (String × α))
    (h : ∀ p ∈ l, p.1 ≠ k) : dinsert k v l = l ++ [(k, v)] := by
  induction l with
  | nil => rfl
  | cons p rest ih =>
    obtain ⟨k', v'⟩ := p
    simp only [dinsert]
    rw [if_neg (h (k', v') (List.mem_cons_self _ _)),
      ih (fun q hq => h q (List.mem_cons_of_mem _ hq))]
    rfl

theorem foldl_dinsert_map {α β : Type} (key : α → String) (f : α → β) :
    ∀ (ms : List α) (init : List (String × β)),
      (ms.map key).Nodup →
      (∀ p ∈ init, ∀ m ∈ ms, p.1 ≠ key m) →
      ms.foldl (fun acc m => dinsert (key m) (f m) acc) init
        = init ++ ms.map (fun m => (key m, f m))
  | [], init, _, _ => by simp
  | m :: ms, init, hnd, hdisj => by
    simp only [List.map_cons, List.nodup_cons, List.mem_map] at hnd
    simp only [List.foldl_cons, List.map_cons]
    rw [dinsert_eq_append _ _ _ (fun p hp => hdisj p hp m (List.mem_cons_self _ _))]
    rw [foldl_dinsert_map key f ms (init ++ [(key m, f m)]) hnd.2 ?_]
    · simp
    · intro p hp m' hm'
      rcases List.mem_append.mp hp with hp | hp
      · exact hdisj p hp m' (List.mem_cons_of_mem _ hm')
      · simp only [List.mem_singleton] at hp
        subst hp
        intro hcon
        exact hnd.1 ⟨m', hm', hcon.symm⟩

theorem dget?_map_self {α β : Type} (key : α → String) (f : α → β) :
    ∀ (ms : List α), (ms.map key).Nodup → ∀ m ∈ ms,
      dget? (ms.map (fun x => (key x, f x))) (key m) = some (f m)
  | [], _, m, hm => absurd hm (List.not_mem_nil m)
  | a :: ms, hnd, m, hm => by
    simp only [List.map_cons, List.nodup_cons, List.mem_map] at hnd
    rcases List.mem_cons.mp hm with rfl | hm'
    · simp [dget?, List.find?]
    · have hne : key a ≠ key m := by
        intro hcon
        exact hnd.1 ⟨m, hm', hcon.symm⟩
      simp only [List.map_cons, dget?, List.find?]
      rw [decide_eq_false hne]
      exact dget?_map_self key f ms hnd.2 m hm'

theorem filterMap_congr_map {α β : Type} (l : List α) (f : α → Option β) (g : α → β)
    (h : ∀ a ∈ l, f a = some (g a)) : l.filterMap f = l.map g := by
  induction l with
  | nil => rfl
  | cons a t ih =>
    rw [List.filterMap_cons_some (h a (List.mem_cons_self a t)), List.map_cons,
      ih (fun b hb => h b (List.mem_cons_of_mem a hb))]

/-! ## The progress pipeline under well-shaped metrics -/

theorem current_metrics_eq (cfg : EvalConfig) (s : CState)
    (hnd : (cfg.metrics.map (fun m => m.name)).Nodup) :
    calculate_current_metrics cfg s
      = cfg.metrics.map (fun m => (m.name, metric_calculator m.calculation s)) := by
  unfold calculate_current_metrics
  simpa using foldl_dinsert_map (fun m => m.name)
    (fun m => metric_calculator m.calculation s) cfg.metrics [] hnd (by simp)

theorem metric_progress_entry_eq (m : MetricDef) (c : ℝ) (h : ProgressibleMetric m) :
    metric_progress_entry m c = .ok (some (progress_entry_of m c)) := by
  rcases h with ⟨ht, x, hx⟩ | ⟨ht, lo, hi, hx⟩ <;>
    simp [metric_progress_entry, progress_entry_of, ht, hx]

theorem progress_of_entry (m : MetricDef) (c : ℝ) :
    (progress_entry_of m c).progress = progress_value m c := by
  rcases m with ⟨n, ty, tg, w, sv, ca⟩
  cases ty <;> cases tg <;> rfl

theorem progress_step_ok (cur : List (String × ℝ)) (acc : List (String × ProgEntry))
    (m : MetricDef) (h : ProgressibleMetric m) :
    progress_step cur acc m
      = .ok (dinsert m.name (progress_entry_of m ((dget? cur m.name).getD 0.0)) acc) := by
  unfold progress_step
  rw [metric_progress_entry_eq m _ h]
  rfl

theorem metric_progress_foldlM (cur : List (String × ℝ)) :
    ∀ (ms : List MetricDef) (acc : List (String × ProgEntry)),
      (∀ m ∈ ms, ProgressibleMetric m) →
      List.foldlM (progress_step cur) acc ms
      = .ok (ms.foldl (fun acc m =>
          dinsert m.name (progress_entry_of m ((dget? cur m.name).getD 0.0)) acc) acc)
  | [], acc, _ => rfl
  | m :: ms, acc, h => by
    rw [List.foldlM_cons, progress_step_ok cur acc m (h m (List.mem_cons_self _ _)),
      List.foldl_cons]
    exact metric_progress_foldlM cur ms _ (fun m' hm' => h m' (List.mem_cons_of_mem _ hm'))

theorem metric_progress_eq (cfg : EvalConfig) (cur : List (String × ℝ))
    (hprog : ∀ m ∈ cfg.metrics, ProgressibleMetric m)
    (hnd : (cfg.metrics.map (fun m => m.name)).Nodup) :
    calculate_metric_progress cfg cur
      = .ok (cfg.metrics.map (fun m =>
          (m.name, progress_entry_of m ((dget? cur m.name).getD 0.0)))) := by
  unfold calculate_metric_progress
  rw [metric_progress_foldlM cur cfg.metrics [] hprog]
  rw [foldl_dinsert_map (fun m => m.name)
    (fun m => progress_entry_of m ((dget? cur m.name).getD 0.0)) cfg.metrics [] hnd (by simp)]
  simp

/-! ## The optimal-comparison score -/

theorem find?_isSome_eq_any {α : Type} (l : List α) (p : α → Bool) :
    (l.find? p).isSome = l.any p := by
  induction l with
  | nil => rfl
  | cons a t ih =>
    by_cases h : p a = true
    · simp [List.find?_cons_of_pos _ h, List.any_cons, h]
    · rw [List.find?_cons_of_neg _ h, List.any_cons]
      simp only [Bool.not_eq_true] at h
      rw [h, Bool.false_or, ih]

theorem compare_score_eq (cfg : EvalConfig) (cmds : List PCmd) :
    (compare_with_optimal cfg cmds).score = spec_match_fraction cfg cmds := by
  unfold compare_with_optimal spec_match_fraction
  simp only [List.filter_map, List.length_map]
  by_cases hopt : cfg.optimal_commands = []
  · simp [hopt]
    norm_num
  · rw [if_neg (by simp [List.isEmpty_iff, hopt]), if_neg (by simp [List.isEmpty_iff, hopt])]
    congr 3
    apply List.filter_congr
    intro opt _
    simp only [Function.comp_apply]
    cases hf : cmds.find? (fun c => commands_match c opt.command) with
    | none =>
      have hany : cmds.any (fun c => commands_match c opt.command) = false := by
        rw [List.any_eq_false]
        intro c hc
        simpa using List.find?_eq_none.mp hf c hc
      rw [hany]
    | some c =>
      have hany : cmds.any (fun c => commands_match c opt.command) = true :=
        List.any_eq_true.mpr ⟨c, List.mem_of_find?_eq_some hf, by simpa using List.find?_some hf⟩
      rw [hany]

/-! ## Range bounds for the score ingredients -/

set_option maxHeartbeats 1000000 in
theorem metric_calculator_mem_unit (c : String) (s : CState) (hv : ValidState s) :
    0 ≤ metric_calculator c s ∧ metric_calculator c s ≤ 1 := by
  unfold metric_calculator
  split_ifs
  · exact grid_stability_mem_unit s hv
  · exact power_conservation_mem_unit s
  · exact critical_infrastructure_mem_unit s hv
  · exact incident_response_mem_unit s
  · exact incident_resolution_mem_unit s
  · exact drone_utilization_mem_unit s
  · exact response_time_mem_unit s hv
  · exact traffic_flow_mem_unit s
  · exact emergency_routing_mem_unit s
  · exact congestion_management_mem_unit s
  · exact overall_coordination_mem_unit s hv
  · exact resource_efficiency_mem_unit s
  · norm_num

theorem progress_value_mem_unit (m : MetricDef) (c : ℝ) (hc : 0 ≤ c)
    (ht : ThresholdNonneg m) : 0 ≤ progress_value m c ∧ progress_value m c ≤ 1 := by
  rcases m with ⟨n, ty, tg, w, sv, ca⟩
  cases ty <;> cases tg <;> simp only [progress_value]
  case threshold.scalar t =>
    have htn : 0 ≤ t := ht t rfl
    by_cases h0 : t = 0
    · rw [if_neg (by simp [h0])]
      norm_num [min_def]
    · rw [if_pos h0]
      have hdiv : 0 ≤ c / t := div_nonneg hc (lt_of_le_of_ne htn (Ne.symm h0)).le
      exact ⟨le_min (by norm_num) hdiv, le_trans (min_le_left _ _) (by norm_num)⟩
  case range.range lo hi => split_ifs <;> norm_num
  all_goals norm_num

theorem weighted_mean_mem_unit {α : Type} (l : List α) (p w : α → ℝ)
    (hp : ∀ x ∈ l, 0 ≤ p x ∧ p x ≤ 1) (hw : ∀ x ∈ l, 0 ≤ w x)
    (hpos : 0 < (l.map w).sum) :
    0 ≤ (l.map (fun x => p x * w x)).sum / (l.map w).sum ∧
      (l.map (fun x => p x * w x)).sum / (l.map w).sum ≤ 1 := by
  constructor
  · exact div_nonneg
      (map_sum_nonneg l _ (fun x hx => mul_nonneg (hp x hx).1 (hw x hx))) hpos.le
  · rw [div_le_one hpos]
    apply List.sum_le_sum
    intro x hx
    calc p x * w x ≤ 1 * w x := mul_le_mul_of_nonneg_right (hp x hx).2 (hw x hx)
    _ = w x := one_mul _

theorem spec_weighted_mean_mem_unit (cfg : EvalConfig) (s : CState)
    (hw : 0 < (cfg.metrics.map (fun m => m.weight)).sum)
    (hwn : ∀ m ∈ cfg.metrics, 0 ≤ m.weight)
    (hth : ∀ m ∈ cfg.metrics, ThresholdNonneg m) (hv : ValidState s) :
    0 ≤ spec_weighted_mean cfg s ∧ spec_weighted_mean cfg s ≤ 1 := by
  unfold spec_weighted_mean
  exact weighted_mean_mem_unit cfg.metrics
    (fun m => progress_value m (metric_calculator m.calculation s)) (fun m => m.weight)
    (fun m hm =>
      progress_value_mem_unit m _ (metric_calculator_mem_unit _ s hv).1 (hth m hm))
    hwn hw

theorem spec_match_fraction_mem_unit (cfg : EvalConfig) (cmds : List PCmd) :
    0 ≤ spec_match_fraction cfg cmds ∧ spec_match_fraction cfg cmds ≤ 1 := by
  unfold spec_match_fraction
  split_ifs with h
  · norm_num
  · have hne : cfg.optimal_commands ≠ [] := fun hc => h (by simp [hc])
    have hlen : 0 < (cfg.optimal_commands.length : ℝ) := by
      exact_mod_cast List.length_pos.mpr hne
    constructor
    · exact div_nonneg (by positivity) hlen.le
    · rw [div_le_one hlen]
      exact_mod_cast List.length_filter_le _ _


/-! ## Claim C2 assembly -/

theorem evaluate_commands_ok (cfg : EvalConfig) (cmds : List PCmd) (s : CState)
    (hprog : ∀ m ∈ cfg.metrics, ProgressibleMetric m)
    (hnd : (cfg.metrics.map (fun m => m.name)).Nodup) :
    ∃ r, evaluate_commands cfg cmds s = .ok r ∧
      r.overall_score = calculate_overall_score cfg
        (cfg.metrics.map (fun m =>
          (m.name, progress_entry_of m
            ((dget? (calculate_current_metrics cfg s) m.name).getD 0.0))))
        (compare_with_optimal cfg cmds) := by
  simp only [evaluate_commands]
  rw [metric_progress_eq cfg _ hprog hnd]
  exact ⟨_, rfl, rfl⟩

theorem overall_score_rewrite (cfg : EvalConfig) (cmds : List PCmd) (s : CState)
    (hnd : (cfg.metrics.map (fun m => m.name)).Nodup)
    (hw : 0 < (cfg.metrics.map (fun m => m.weight)).sum) :
    calculate_overall_score cfg
      (cfg.metrics.map (fun m =>
        (m.name, progress_entry_of m
          ((dget? (calculate_current_metrics cfg s) m.name).getD 0.0))))
      (compare_with_optimal cfg cmds)
      = 0.85 * spec_weighted_mean cfg s + 0.15 * spec_match_fraction cfg cmds := by
  simp only [calculate_overall_score]
  rw [compare_score_eq]
  have hpairs : cfg.metrics.filterMap (fun m =>
      (dget? (cfg.metrics.map (fun m' =>
        (m'.name, progress_entry_of m'
          ((dget? (calculate_current_metrics cfg s) m'.name).getD 0.0)))) m.name).map
        (fun e => (e.progress, m.weight)))
      = cfg.metrics.map (fun m =>
          (progress_value m (metric_calculator m.calculation s), m.weight)) := by
    apply filterMap_congr_map
    intro m hm
    have hg : dget? (cfg.metrics.map (fun m' =>
        (m'.name, progress_entry_of m'
          ((dget? (calculate_current_metrics cfg s) m'.name).getD 0.0)))) m.name
        = some (progress_entry_of m
            ((dget? (calculate_current_metrics cfg s) m.name).getD 0.0)) := by
      simpa using dget?_map_self (fun m' => m'.name)
        (fun m' => progress_entry_of m'
          ((dget? (calculate_current_metrics cfg s) m'.name).getD 0.0)) cfg.metrics hnd m hm
    rw [hg, current_metrics_eq cfg s hnd]
    have hc : dget? (cfg.metrics.map (fun m' =>
        (m'.name, metric_calculator m'.calculation s))) m.name
        = some (metric_calculator m.calculation s) := by
      simpa using dget?_map_self (fun m' => m'.name)
        (fun m' => metric_calculator m'.calculation s) cfg.metrics hnd m hm
    rw [hc]
    simp [progress_of_entry]
  rw [hpairs]
  have h1 : ((cfg.metrics.map (fun m =>
      (progress_value m (metric_calculator m.calculation s), m.weight))).map
      (fun p => p.1 * p.2))
      = cfg.metrics.map (fun m =>
          progress_value m (metric_calculator m.calculation s) * m.weight) := by
    rw [List.map_map]
    rfl
  have h2 : ((cfg.metrics.map (fun m =>
      (progress_value m (metric_calculator m.calculation s), m.weight))).map
      (fun p => p.2))
      = cfg.metrics.map (fun m => m.weight) := by
    rw [List.map_map]
    rfl
  rw [h1, h2, if_pos hw]
  unfold spec_weighted_mean
  ring

/-- Claim C2 (corrected): for every command list, state, and config whose
declared metrics have pairwise distinct names, target shapes fitting
their types (threshold metrics excluded from progress, such as trend
metrics, would be dropped from the weighted mean), positive total weight,
nonnegative weights and nonnegative threshold targets, evaluated on a
state within the declared ranges, the overall score is
`0.85 * weight-weighted mean of the per-metric progress values +
0.15 * fraction of optimal commands with a matching issued command`, and
lies in `[0, 1]`.  Without the range/nonnegativity hypotheses the `[0,1]`
consequence is false (see the counterexample). -/
theorem overall_score_weighted_decomposition (cfg : EvalConfig) (cmds : List PCmd) (s : CState)
    (hnd : (cfg.metrics.map (fun m => m.name)).Nodup)
    (hprog : ∀ m ∈ cfg.metrics, ProgressibleMetric m)
    (hw : 0 < (cfg.metrics.map (fun m => m.weight)).sum)
    (hwn : ∀ m ∈ cfg.metrics, 0 ≤ m.weight)
    (hth : ∀ m ∈ cfg.metrics, ThresholdNonneg m)
    (hv : ValidState s) :
    ∃ r, evaluate_commands cfg cmds s = .ok r ∧
      r.overall_score
        = 0.85 * spec_weighted_mean cfg s + 0.15 * spec_match_fraction cfg cmds ∧
      0 ≤ r.overall_score ∧ r.overall_score ≤ 1 := by
  obtain ⟨r, hres, hsc⟩ := evaluate_commands_ok cfg cmds s hprog hnd
  rw [overall_score_rewrite cfg cmds s hnd hw] at hsc
  have ha := spec_weighted_mean_mem_unit cfg s hw hwn hth hv
  have hb := spec_match_fraction_mem_unit cfg cmds
  refine ⟨r, hres, hsc, ?_, ?_⟩ <;> rw [hsc]
  · linarith [ha.1, hb.1]
  · linarith [ha.2, hb.2]

theorem overall_score_weighted_decomposition_witness :
    ∃ r, evaluate_commands heatWaveConfig [] emptyState = .ok r ∧
      r.overall_score = 0.85 * spec_weighted_mean heatWaveConfig emptyState +
        0.15 * spec_match_fraction heatWaveConfig [] ∧
      0 ≤ r.overall_score ∧ r.overall_score ≤ 1 :=
  overall_score_weighted_decomposition heatWaveConfig [] emptyState
    (by simp [heatWaveConfig, heatWaveOptimal])
    (by
      intro m hm
      simp [heatWaveConfig, heatWaveOptimal] at hm
      rcases hm with rfl | rfl | rfl <;> exact Or.inl ⟨rfl, _, rfl⟩)
    (by norm_num [heatWaveConfig, heatWaveOptimal])
    (by
      intro m hm
      simp [heatWaveConfig, heatWaveOptimal] at hm
      rcases hm with rfl | rfl | rfl <;> norm_num)
    (by
      intro m hm x hx
      simp [heatWaveConfig, heatWaveOptimal] at hm
      rcases hm with rfl | rfl | rfl <;> (injection hx with h; rw [← h]) <;> norm_num)
    (by refine ⟨?_, ?_, ?_⟩ <;> simp [ValidState, emptyState])

/-- Claim C2, counterexample to the unconditional `[0, 1]` bound: on a
state whose single zone has stability −1 (the normalizer does not clamp
stability), the grid-stability progress is negative and the overall score
is negative. -/
theorem overall_score_negative_counterexample :
    ∃ r, evaluate_commands cfgGridOnly [] (singleZoneState (-1) 1 0) = .ok r ∧
      r.overall_score < 0 := by
  obtain ⟨r, hres, hsc⟩ := evaluate_commands_ok cfgGridOnly [] (singleZoneState (-1) 1 0)
    (by
      intro m hm
      simp [cfgGridOnly] at hm
      subst hm
      exact Or.inl ⟨rfl, _, rfl⟩)
    (by simp [cfgGridOnly])
  refine ⟨r, hres, ?_⟩
  rw [hsc]
  norm_num [calculate_overall_score, cfgGridOnly, compare_with_optimal,
    calculate_current_metrics, List.foldl, dinsert, metric_calculator,
    calculate_grid_stability, singleZoneState, progress_entry_of, dget?, List.find?,
    List.filterMap, List.isEmpty, min_def]

/-! ## Claims C6, C8, C10 -/


theorem progress_step_compatible_ok (cur : List (String × ℝ))
    (acc : List (String × ProgEntry)) (m : MetricDef) (h : TargetCompatible m) :
    ∃ acc', progress_step cur acc m = .ok acc' := by
  rcases m with ⟨n, ty, tg, w, sv, ca⟩
  cases ty <;> cases tg <;>
    first
      | exact ⟨_, rfl⟩
      | simp [TargetCompatible] at h

theorem foldlM_compatible_ok (cur : List (String × ℝ)) :
    ∀ (ms : List MetricDef) (acc : List (String × ProgEntry)),
      (∀ m ∈ ms, TargetCompatible m) →
      ∃ l, List.foldlM (progress_step cur) acc ms = .ok l
  | [], acc, _ => ⟨acc, rfl⟩
  | m :: ms, acc, h => by
    obtain ⟨acc', hs⟩ := progress_step_compatible_ok cur acc m (h m (List.mem_cons_self _ _))
    obtain ⟨l, hl⟩ := foldlM_compatible_ok cur ms acc'
      (fun m' hm' => h m' (List.mem_cons_of_mem _ hm'))
    refine ⟨l, ?_⟩
    rw [List.foldlM_cons, hs]
    exact hl

theorem metric_progress_compatible_ok (cfg : EvalConfig) (cur : List (String × ℝ))
    (h : ∀ m ∈ cfg.metrics, TargetCompatible m) :
    ∃ l, calculate_metric_progress cfg cur = .ok l :=
  foldlM_compatible_ok cur cfg.metrics [] h

theorem compare_empty_score (cfg : EvalConfig) :
    (compare_with_optimal cfg []).score = 0 := by
  unfold compare_with_optimal
  simp only [List.find?]
  have hfil : ((cfg.optimal_commands.map (fun opt => opt.command)).map
      (fun opt => MatchRecord.mk opt Option.none false)).filter
        (fun m => m.matched) = [] := by
    rw [List.filter_eq_nil_iff]
    intro rec hrec
    rcases List.mem_map.mp hrec with ⟨o, _, rfl⟩
    simp
  rw [hfil]
  split_ifs <;> norm_num

/-- Claim C6 (corrected): evaluating an empty command list returns a
well-formed result whose `optimal_comparison.score` is 0.0, provided
every declared metric's target shape fits its metric type and every
traffic sector's congestion level is nonnegative.  Both provisos are
necessary in the source: a range metric with a scalar target raises
`TypeError` in `_calculate_metric_progress` (see the counterexample),
and with a `traffic_flow` (or `resource_efficiency`) metric a negative
congestion level makes `congestion ** 1.5` complex in Python, so the
enclosing `max` raises `TypeError` — the congestion hypothesis keeps the
statement inside the domain where the embedding's total real power
agrees with the program. -/
theorem evaluate_empty_commands_well_formed (cfg : EvalConfig) (s : CState)
    (hc : ∀ m ∈ cfg.metrics, TargetCompatible m)
    (hcong : ∀ t ∈ s.traffic, 0 ≤ t.congestion_level) :
    ∃ r, evaluate_commands cfg [] s = .ok r ∧ r.optimal_comparison.score = 0 := by
  obtain ⟨l, hl⟩ := metric_progress_compatible_ok cfg (calculate_current_metrics cfg s) hc
  simp only [evaluate_commands]
  rw [hl]
  exact ⟨_, rfl, compare_empty_score cfg⟩

theorem evaluate_empty_commands_well_formed_witness :
    ∃ r, evaluate_commands heatWaveConfig [] oneAssignedState = .ok r ∧
      r.optimal_comparison.score = 0 :=
  evaluate_empty_commands_well_formed heatWaveConfig oneAssignedState
    (by
      intro m hm
      simp [heatWaveConfig, heatWaveOptimal] at hm
      rcases hm with rfl | rfl | rfl <;> trivial)
    (by
      intro t ht
      simp [oneAssignedState] at ht
      rw [ht]
      norm_num)

/-- Claim C6, counterexample: with a range metric whose declared target
is a scalar, evaluating even the empty command list raises `TypeError`
(modelled as `Except.error`) instead of returning a result. -/
theorem evaluate_bad_target_raises : evaluate_commands cfgBadTarget [] emptyState = .error () := rfl

theorem eval_impact_empty_cmd :
    evaluate_command_impact heatWaveConfig emptyCmd
      = { command := emptyCmd, optimal_match := false,
          impact_analysis := some { affected_metrics := []
                                    expected_impact := []
                                    relevance_score := 0.75 } } := by
  rfl

/-- Claim C8 (corrected): a command lacking service or action is not
skipped: every evaluated command contributes exactly one per-command
impact entry, and the empty command dict matches no optimal command and
receives the heuristic analysis with relevance score 0.75, no affected
metrics and no expected impact. -/
theorem malformed_commands_get_impact_entries :
    (∀ (cfg : EvalConfig) (cmds : List PCmd) (s : CState) (r : EvalResult),
      evaluate_commands cfg cmds s = .ok r →
      r.command_impacts = cmds.map (fun c => evaluate_command_impact cfg c)) ∧
    evaluate_command_impact heatWaveConfig emptyCmd
      = { command := emptyCmd, optimal_match := false,
          impact_analysis := some { affected_metrics := []
                                    expected_impact := []
                                    relevance_score := 0.75 } } := by
  constructor
  · intro cfg cmds s r h
    simp only [evaluate_commands] at h
    cases hm : calculate_metric_progress cfg (calculate_current_metrics cfg s) with
    | error e =>
      rw [hm] at h
      simp at h
    | ok prog =>
      rw [hm] at h
      injection h with h'
      rw [← h']
  · exact eval_impact_empty_cmd

/-- Claim C8, counterexample: evaluating the single malformed empty
command under the heat-wave config produces one impact entry (heuristic
relevance 0.75) rather than skipping the command. -/
theorem malformed_command_entry_counterexample :
    ∃ r, evaluate_commands heatWaveConfig [emptyCmd] emptyState = .ok r ∧
      r.command_impacts
        = [{ command := emptyCmd, optimal_match := false,
             impact_analysis := some { affected_metrics := []
                                       expected_impact := []
                                       relevance_score := 0.75 } }] := by
  obtain ⟨l, hl⟩ := metric_progress_compatible_ok heatWaveConfig
    (calculate_current_metrics heatWaveConfig emptyState) (by
      intro m hm
      simp [heatWaveConfig, heatWaveOptimal] at hm
      rcases hm with rfl | rfl | rfl <;> trivial)
  simp only [evaluate_commands]
  rw [hl]
  refine ⟨_, rfl, ?_⟩
  show [evaluate_command_impact heatWaveConfig emptyCmd] = _
  rw [eval_impact_empty_cmd]

/-- Claim C10 (confirmed): an issued command whose parameter keys are all
absent from the optimal command's parameters matches whenever service and
action compare equal; a command matching some declared optimal command
receives the perfect per-command score 1.0, and any optimal command whose
command dict it matches counts toward the match fraction. -/
theorem disjoint_params_perfect_match (c1 c2 : PCmd)
    (hs : pyEq (c1.service.getD .none) (c2.service.getD .none) = true)
    (ha : pyEq (c1.action.getD .none) (c2.action.getD .none) = true)
    (hdisj : ∀ kv ∈ c2.parameters, pget? c1.parameters kv.1 = Option.none) :
    commands_match c1 c2 = true ∧
    (∀ cfg : EvalConfig, (∃ o ∈ cfg.optimal_commands, commands_match c1 o.command = true) →
      (evaluate_command_impact cfg c1).optimal_match = true ∧
      (evaluate_command_impact cfg c1).score = some 1.0) ∧
    (∀ (cmds : List PCmd) (o : CmdImpact), c1 ∈ cmds → o.command = c2 →
      cmds.any (fun c => commands_match c o.command) = true) := by
  have hmatch : commands_match c1 c2 = true :=
    (commands_match_iff c1 c2).mpr
      ⟨hs, ha, Or.inr (Or.inr (fun kv hkv => Or.inl (hdisj kv hkv)))⟩
  refine ⟨hmatch, ?_, ?_⟩
  · rintro cfg ⟨o, ho, hmo⟩
    cases hf : cfg.optimal_commands.find? (fun opt => commands_match c1 opt.command) with
    | none => exact absurd hmo (by simpa using List.find?_eq_none.mp hf o ho)
    | some o' =>
      unfold evaluate_command_impact
      rw [hf]
      exact ⟨rfl, rfl⟩
  · intro cmds o hc1 ho
    exact List.any_eq_true.mpr ⟨c1, hc1, by rw [ho]; exact hmatch⟩

theorem disjoint_params_perfect_match_witness :
    commands_match fallbackAssignPCmd
      { service := some (.str "emergency"), action := some (.str "assign_drone"),
        parameters := [("drone_id", .str "drone_1"), ("incident_id", .str "incident_1")] }
      = true ∧
    (evaluate_command_impact heatWaveConfig fallbackAssignPCmd).optimal_match = true ∧
    (evaluate_command_impact heatWaveConfig fallbackAssignPCmd).score = some 1.0 := by
  have h := disjoint_params_perfect_match fallbackAssignPCmd
    { service := some (.str "emergency"), action := some (.str "assign_drone"),
      parameters := [("drone_id", .str "drone_1"), ("incident_id", .str "incident_1")] }
    (by decide) (by decide)
    (by
      intro kv hkv
      simp [List.mem_cons] at hkv
      rcases hkv with rfl | rfl <;> rfl)
  have h2 := h.2.1 heatWaveConfig
    ⟨{ command :=
        { service := some (.str "emergency"), action := some (.str "assign_drone"),
          parameters := [("drone_id", .str "drone_1"), ("incident_id", .str "incident_1")] },
       affected_metrics := ["incident_response"],
       expected_impact := [("incident_response", 0.2)] },
      by simp [heatWaveConfig, heatWaveOptimal], h.1⟩
  exact ⟨h.1, h2.1, h2.2⟩

/-! ## Claim C9 -/


set_option maxHeartbeats 2000000 in
/-- Claim C9 (corrected): the agent-output converter does not
deduplicate: a structured plan repeating one zone adjustment converts to
the same command twice.  Only the free-text fallback extraction is
per-pattern unique: every output text yields pairwise distinct fallback
actions, so a text mentioning the drone pattern twice still yields
exactly one `(emergency, assign_drone)` fallback command. -/
theorem converter_keeps_duplicates_fallback_unique :
    (∀ t : String, ((extract_fallback_tool_usage t).map (fun c => c.action)).Nodup) ∧
    convert_agent_results_to_commands [droneTextTask] = [fallbackDroneCmd] ∧
    convert_agent_results_to_commands [dupTask] = [cmdZ1, cmdZ1] := by
  refine ⟨?_, rfl, rfl⟩
  intro t
  unfold extract_fallback_tool_usage
  rw [List.map_map]
  have hnd : (tool_patterns.map (fun p => p.2.1)).Nodup := by decide
  have hsub : ((tool_patterns.filter (fun p =>
      occursIn (lowerStr p.1).toList (lowerStr t).toList)).map (fun p => p.2.1)).Sublist
      (tool_patterns.map (fun p => p.2.1)) :=
    List.Sublist.map _ (List.filter_sublist tool_patterns)
  exact List.Nodup.sublist hsub hnd

/-- Claim C9, counterexample: a task output whose structured dict repeats
one zone adjustment converts to the same command twice, so the returned
list is not duplicate-free. -/
theorem converter_duplicates_counterexample :
    convert_agent_results_to_commands [dupTask] = [cmdZ1, cmdZ1] ∧
    ¬ ([cmdZ1, cmdZ1] : List Command).Nodup := by
  refine ⟨rfl, ?_⟩
  intro h
  exact (List.nodup_cons.mp h).1 (List.mem_singleton_self _)

/-! ## Claim C5 -/


theorem keys_dinsert {α : Type} (k : String) (v : α) :
    ∀ (l : List (String × α)) (x : String),
      x ∈ (dinsert k v l).map Prod.fst ↔ x = k ∨ x ∈ l.map Prod.fst
  | [], x => by simp [dinsert]
  | (k', v') :: rest, x => by
    by_cases hk : k' = k
    · have hd : dinsert k v ((k', v') :: rest) = (k, v) :: rest := by
        show (if k' = k then (k, v) :: rest else (k', v') :: dinsert k v rest) = _
        rw [if_pos hk]
      rw [hd]
      simp only [List.map_cons, List.mem_cons]
      rw [hk]
      tauto
    · have hd : dinsert k v ((k', v') :: rest) = (k', v') :: dinsert k v rest := by
        show (if k' = k then (k, v) :: rest else (k', v') :: dinsert k v rest) = _
        rw [if_neg hk]
      rw [hd]
      simp only [List.map_cons, List.mem_cons]
      rw [keys_dinsert k v rest x]
      tauto

theorem dinsert_keys_nodup {α : Type} (k : String) (v : α) :
    ∀ (l : List (String × α)), (l.map Prod.fst).Nodup → ((dinsert k v l).map Prod.fst).Nodup
  | [], _ => by simp [dinsert]
  | (k', v') :: rest, h => by
    simp only [List.map_cons, List.nodup_cons] at h
    by_cases hk : k' = k
    · have hd : dinsert k v ((k', v') :: rest) = (k, v) :: rest := by
        show (if k' = k then (k, v) :: rest else (k', v') :: dinsert k v rest) = _
        rw [if_pos hk]
      rw [hd]
      simp only [List.map_cons, List.nodup_cons]
      rw [hk] at h
      exact h
    · have hd : dinsert k v ((k', v') :: rest) = (k', v') :: dinsert k v rest := by
        show (if k' = k then (k, v) :: rest else (k', v') :: dinsert k v rest) = _
        rw [if_neg hk]
      rw [hd]
      simp only [List.map_cons, List.nodup_cons]
      refine ⟨?_, dinsert_keys_nodup k v rest h.2⟩
      intro hmem
      rcases (keys_dinsert k v rest k').mp hmem with rfl | hmem'
      · exact hk rfl
      · exact h.1 hmem'

theorem mem_dinsert {α : Type} (k : String) (v : α) :
    ∀ (l : List (String × α)) (p : String × α), p ∈ dinsert k v l → p = (k, v) ∨ p ∈ l
  | [], p, h => by
    simp only [dinsert, List.mem_singleton] at h
    exact Or.inl h
  | (k', v') :: rest, p, h => by
    by_cases hk : k' = k
    · have hd : dinsert k v ((k', v') :: rest) = (k, v) :: rest := by
        show (if k' = k then (k, v) :: rest else (k', v') :: dinsert k v rest) = _
        rw [if_pos hk]
      rw [hd, List.mem_cons] at h
      rcases h with rfl | h
      · exact Or.inl rfl
      · exact Or.inr (List.mem_cons_of_mem _ h)
    · have hd : dinsert k v ((k', v') :: rest) = (k', v') :: dinsert k v rest := by
        show (if k' = k then (k, v) :: rest else (k', v') :: dinsert k v rest) = _
        rw [if_neg hk]
      rw [hd, List.mem_cons] at h
      rcases h with rfl | h
      · exact Or.inr (List.mem_cons_self _ _)
      · rcases mem_dinsert k v rest p h with h' | h'
        · exact Or.inl h'
        · exact Or.inr (List.mem_cons_of_mem _ h')

theorem foldl_congr_mem {α β : Type} :
    ∀ (l : List α) (f g : β → α → β) (b : β),
      (∀ a ∈ l, ∀ acc, f acc a = g acc a) → l.foldl f b = l.foldl g b
  | [], _, _, _, _ => rfl
  | a :: t, f, g, b, h => by
    rw [List.foldl_cons, List.foldl_cons, h a (List.mem_cons_self _ _) b]
    exact foldl_congr_mem t f g _ (fun x hx acc => h x (List.mem_cons_of_mem _ hx) acc)

theorem dict_fold_shaped (mk : String → List (String × PVal) → PVal) :
    ∀ (kvs : List (String × PVal)) (acc : List (String × PVal)),
      Shaped mk acc → Shaped mk (kvs.foldl (dict_norm_step mk) acc)
  | [], _, h => h
  | p :: rest, acc, h => by
    rw [List.foldl_cons]
    apply dict_fold_shaped mk rest
    rcases p with ⟨k, v⟩
    cases v with
    | dict zf =>
      refine ⟨dinsert_keys_nodup k (mk k zf) acc h.1, ?_⟩
      intro q hq
      rcases mem_dinsert k (mk k zf) acc q hq with rfl | hq'
      · exact ⟨zf, rfl⟩
      · exact h.2 q hq'
    | num q => exact h
    | bool b => exact h
    | str s => exact h
    | none => exact h
    | list xs => exact h

theorem entry_step_shaped (idOf : List (String × PVal) → PVal)
    (mk : String → List (String × PVal) → PVal)
    (acc : List (String × PVal)) (x : PVal) (acc' : List (String × PVal))
    (h : Shaped mk acc) (hs : entry_step idOf mk acc x = some acc') : Shaped mk acc' := by
  cases x with
  | dict fields =>
    simp only [entry_step] at hs
    split_ifs at hs with ht
    · cases hid : idOf fields with
      | str s =>
        rw [hid] at hs
        obtain rfl := (Option.some.inj hs).symm
        refine ⟨dinsert_keys_nodup s (mk s fields) acc h.1, ?_⟩
        intro q hq
        rcases mem_dinsert s (mk s fields) acc q hq with rfl | hq'
        · exact ⟨fields, rfl⟩
        · exact h.2 q hq'
      | num q => rw [hid] at hs; exact Option.noConfusion hs
      | bool b => rw [hid] at hs; exact Option.noConfusion hs
      | none => rw [hid] at hs; exact Option.noConfusion hs
      | list xs => rw [hid] at hs; exact Option.noConfusion hs
      | dict kvs => rw [hid] at hs; exact Option.noConfusion hs
    · obtain rfl := (Option.some.inj hs).symm
      exact h
  | num q => exact Option.noConfusion hs
  | bool b => exact Option.noConfusion hs
  | str s => exact Option.noConfusion hs
  | none => exact Option.noConfusion hs
  | list xs => exact Option.noConfusion hs

theorem entry_fold_shaped (idOf : List (String × PVal) → PVal)
    (mk : String → List (String × PVal) → PVal) :
    ∀ (xs : List PVal) (acc res : List (String × PVal)),
      Shaped mk acc → xs.foldlM (entry_step idOf mk) acc = some res → Shaped mk res
  | [], acc, res, h, he => by
    obtain rfl := Option.some.inj he
    exact h
  | x :: rest, acc, res, h, he => by
    rw [List.foldlM_cons] at he
    cases hs : entry_step idOf mk acc x with
    | none =>
      rw [hs] at he
      exact Option.noConfusion he
    | some acc' =>
      rw [hs] at he
      exact entry_fold_shaped idOf mk rest acc' res
        (entry_step_shaped idOf mk acc x acc' h hs) he

theorem normalize_zones_shaped (v : PVal) (zs : List (String × PVal))
    (h : normalize_zones v = some zs) : Shaped mkZoneVal zs := by
  cases v with
  | list xs =>
    simp only [normalize_zones, normalize_entry_list] at h
    exact entry_fold_shaped _ mkZoneVal xs [] zs ⟨List.nodup_nil, by simp⟩ h
  | dict kvs =>
    simp only [normalize_zones] at h
    obtain rfl := (Option.some.inj h).symm
    exact dict_fold_shaped mkZoneVal kvs [] ⟨List.nodup_nil, by simp⟩
  | num q => exact Option.noConfusion h
  | bool b => exact Option.noConfusion h
  | str s => exact Option.noConfusion h
  | none => exact Option.noConfusion h

theorem normalize_traffic_shaped (v : PVal) (tra : List (String × PVal))
    (h : normalize_traffic v = some tra) : Shaped mkSectorVal tra := by
  cases v with
  | list xs =>
    simp only [normalize_traffic, normalize_entry_list] at h
    exact entry_fold_shaped _ mkSectorVal xs [] tra ⟨List.nodup_nil, by simp⟩ h
  | dict kvs =>
    simp only [normalize_traffic] at h
    obtain rfl := (Option.some.inj h).symm
    exact dict_fold_shaped mkSectorVal kvs [] ⟨List.nodup_nil, by simp⟩
  | num q => exact Option.noConfusion h
  | bool b => exact Option.noConfusion h
  | str s => exact Option.noConfusion h
  | none => exact Option.noConfusion h

theorem normalize_incidents_idem (v w : PVal) (h : normalize_incidents v = some w) :
    normalize_incidents w = some w := by
  cases v with
  | list xs =>
    simp only [normalize_incidents] at h
    rcases Option.map_eq_some'.mp h with ⟨l, _, rfl⟩
    rfl
  | num q => obtain rfl := (Option.some.inj h).symm; rfl
  | bool b => obtain rfl := (Option.some.inj h).symm; rfl
  | str s => obtain rfl := (Option.some.inj h).symm; rfl
  | none => obtain rfl := (Option.some.inj h).symm; rfl
  | dict kvs => obtain rfl := (Option.some.inj h).symm; rfl

theorem normalize_drones_idem (v w : PVal) (h : normalize_drones v = some w) :
    normalize_drones w = some w := by
  cases v with
  | list xs =>
    simp only [normalize_drones] at h
    rcases Option.map_eq_some'.mp h with ⟨l, _, rfl⟩
    rfl
  | num q => obtain rfl := (Option.some.inj h).symm; rfl
  | bool b => obtain rfl := (Option.some.inj h).symm; rfl
  | str s => obtain rfl := (Option.some.inj h).symm; rfl
  | none => obtain rfl := (Option.some.inj h).symm; rfl
  | dict kvs => obtain rfl := (Option.some.inj h).symm; rfl

theorem por_falsy_num (c : PVal) (h : falsy_ok_num c = true) : por c (.num 0) = c := by
  unfold falsy_ok_num at h
  rw [Bool.or_eq_true] at h
  rcases h with h | h
  · simp [por, h]
  · cases c with
    | num q =>
      have hq : q = 0 := by simpa using h
      subst hq
      rfl
    | bool b => simp at h
    | str s => simp at h
    | none => simp at h
    | list xs => simp at h
    | dict kvs => simp at h

theorem por_falsy_bool (c : PVal) (h : falsy_ok_bool c = true) : por c (.bool false) = c := by
  unfold falsy_ok_bool at h
  rw [Bool.or_eq_true] at h
  rcases h with h | h
  · simp [por, h]
  · cases c with
    | bool b =>
      have hb : b = false := by simpa using h
      subst hb
      rfl
    | num q => simp at h
    | str s => simp at h
    | none => simp at h
    | list xs => simp at h
    | dict kvs => simp at h

theorem mkZoneVal_idem (k : String) (s0 c l b st : PVal)
    (hc : falsy_ok_num c = true) (hl : falsy_ok_num l = true) :
    mkZoneVal k [("id", .str k), ("stability", s0), ("capacity_kw", c),
      ("current_load_kw", l), ("is_critical", b), ("status", st), ("zone_id", .str k)]
      = .dict [("id", .str k), ("stability", s0), ("capacity_kw", c),
          ("current_load_kw", l), ("is_critical", b), ("status", st),
          ("zone_id", .str k)] := by
  unfold mkZoneVal
  simp [pgetD, pget, pget?, List.find?, por_falsy_num c hc, por_falsy_num l hl]

theorem mkSectorVal_idem (k : String) (c bl ds : PVal)
    (hc : falsy_ok_num c = true) (hb : falsy_ok_bool bl = true) :
    mkSectorVal k [("id", .str k), ("zone_id", .str k), ("congestion_level", c),
      ("is_blocked", bl), ("description", ds)]
      = .dict [("id", .str k), ("zone_id", .str k), ("congestion_level", c),
          ("is_blocked", bl), ("description", ds)] := by
  unfold mkSectorVal
  simp [pgetD, pget, pget?, List.find?, por_falsy_num c hc, por_falsy_bool bl hb]

theorem dict_fold_self (mk : String → List (String × PVal) → PVal)
    (zs : List (String × PVal))
    (hnd : (zs.map Prod.fst).Nodup)
    (hstep : ∀ p ∈ zs, ∀ acc, dict_norm_step mk acc p = dinsert p.1 p.2 acc) :
    zs.foldl (dict_norm_step mk) [] = zs := by
  rw [foldl_congr_mem zs (dict_norm_step mk) (fun acc p => dinsert p.1 p.2 acc) []
    (fun a ha acc => hstep a ha acc)]
  have h := foldl_dinsert_map Prod.fst Prod.snd zs [] hnd (by simp)
  simpa using h

theorem state_tail_inv (s : List (String × PVal)) (A B C : PVal) (traV : PVal)
    (d : List (String × PVal))
    (h : (normalize_traffic traV).bind (fun tra =>
        (select_coll s "infrastructure" "grid" "infrastructure" (.dict [])).bind
          (fun infV =>
            some [("zones", A), ("incidents", B), ("drones", C),
                  ("traffic", PVal.dict tra), ("infrastructure", infV)])) = some d) :
    ∃ tra infV, normalize_traffic traV = some tra ∧
      d = [("zones", A), ("incidents", B), ("drones", C),
           ("traffic", PVal.dict tra), ("infrastructure", infV)] := by
  cases h8 : normalize_traffic traV with
  | none => rw [h8] at h; simp at h
  | some tra =>
    rw [h8] at h
    simp only [Option.some_bind] at h
    cases h9 : select_coll s "infrastructure" "grid" "infrastructure" (.dict []) with
    | none => rw [h9] at h; simp at h
    | some infV =>
      rw [h9] at h
      simp only [Option.some_bind] at h
      exact ⟨tra, infV, rfl, (Option.some.inj h).symm⟩

theorem normalize_state_shape (s d : List (String × PVal))
    (h : normalize_state s = some d) :
    ∃ zs inc dro tra infV,
      d = [("zones", .dict zs), ("incidents", inc), ("drones", dro),
           ("traffic", .dict tra), ("infrastructure", infV)] ∧
      Shaped mkZoneVal zs ∧ Shaped mkSectorVal tra ∧
      normalize_incidents inc = some inc ∧ normalize_drones dro = some dro := by
  unfold normalize_state at h
  simp only [Option.bind_eq_bind] at h
  cases h1 : select_coll s "zones" "grid" "zones" (.dict []) with
  | none => rw [h1] at h; simp at h
  | some zonesV =>
  rw [h1] at h
  simp only [Option.some_bind] at h
  cases h2 : normalize_zones zonesV with
  | none => rw [h2] at h; simp at h
  | some zs =>
  rw [h2] at h
  simp only [Option.some_bind] at h
  cases h3 : select_coll s "incidents" "emergency" "incidents" (.list []) with
  | none => rw [h3] at h; simp at h
  | some incV =>
  rw [h3] at h
  simp only [Option.some_bind] at h
  cases h4 : normalize_incidents incV with
  | none => rw [h4] at h; simp at h
  | some inc =>
  rw [h4] at h
  simp only [Option.some_bind] at h
  cases h5 : select_coll s "drones" "emergency" "drones" (.list []) with
  | none => rw [h5] at h; simp at h
  | some droV =>
  rw [h5] at h
  simp only [Option.some_bind] at h
  cases h6 : normalize_drones droV with
  | none => rw [h6] at h; simp at h
  | some dro =>
  rw [h6] at h
  simp only [Option.some_bind] at h
  by_cases ht1 : hasKey s "traffic" = true
  · rw [if_pos ht1] at h
    obtain ⟨tra, infV, h8, rfl⟩ := state_tail_inv s _ _ _ _ _ h
    exact ⟨zs, inc, dro, tra, infV, rfl,
      normalize_zones_shaped zonesV zs h2, normalize_traffic_shaped _ tra h8,
      normalize_incidents_idem incV inc h4, normalize_drones_idem droV dro h6⟩
  · rw [if_neg ht1] at h
    by_cases ht2 : hasKey s "traffic_management" = true
    · rw [if_pos ht2] at h
      obtain ⟨tra, infV, h8, rfl⟩ := state_tail_inv s _ _ _ _ _ h
      exact ⟨zs, inc, dro, tra, infV, rfl,
        normalize_zones_shaped zonesV zs h2, normalize_traffic_shaped _ tra h8,
        normalize_incidents_idem incV inc h4, normalize_drones_idem droV dro h6⟩
    · rw [if_neg ht2] at h
      obtain ⟨tra, infV, h8, rfl⟩ := state_tail_inv s _ _ _ _ _ h
      exact ⟨zs, inc, dro, tra, infV, rfl,
        normalize_zones_shaped zonesV zs h2, normalize_traffic_shaped _ tra h8,
        normalize_incidents_idem incV inc h4, normalize_drones_idem droV dro h6⟩

/-- Claim C5 (corrected): normalization is not idempotent in general; it
is idempotent on every output whose stored zone
`capacity_kw`/`current_load_kw` and traffic `congestion_level`/`is_blocked`
values are truthy or already equal to the rebuild defaults
(`norm_idem_ok`): renormalizing such an output returns it unchanged. -/
theorem normalize_state_conditional_idempotent (s d : List (String × PVal))
    (h : normalize_state s = some d) (hok : norm_idem_ok d = true) :
    normalize_state d = some d := by
  obtain ⟨zs, inc, dro, tra, infV, rfl, hzs, htra, hinc, hdro⟩ :=
    normalize_state_shape s d h
  unfold norm_idem_ok at hok
  rw [Bool.and_eq_true] at hok
  obtain ⟨hok1, hok2⟩ := hok
  rw [show pget? [("zones", PVal.dict zs), ("incidents", inc), ("drones", dro),
      ("traffic", PVal.dict tra), ("infrastructure", infV)] "zones"
      = some (PVal.dict zs) from rfl] at hok1
  rw [show pget? [("zones", PVal.dict zs), ("incidents", inc), ("drones", dro),
      ("traffic", PVal.dict tra), ("infrastructure", infV)] "traffic"
      = some (PVal.dict tra) from rfl] at hok2
  replace hok1 : zs.all _ = true := hok1
  replace hok2 : tra.all _ = true := hok2
  have hallz := List.all_eq_true.mp hok1
  have hallt := List.all_eq_true.mp hok2
  have hstepz : ∀ p ∈ zs, ∀ acc, dict_norm_step mkZoneVal acc p = dinsert p.1 p.2 acc := by
    intro p hp acc
    obtain ⟨orig, ho⟩ := hzs.2 p hp
    rcases p with ⟨k, v⟩
    simp only [mkZoneVal] at ho
    subst ho
    have hfp := hallz _ hp
    replace hfp : (falsy_ok_num (por (pget orig "capacity_kw")
        (pgetD orig "capacity" (.num 0))) &&
      falsy_ok_num (por (pget orig "current_load_kw")
        (pgetD orig "current_load" (.num 0)))) = true := hfp
    rw [Bool.and_eq_true] at hfp
    obtain ⟨hcap, hload⟩ := hfp
    simp only [dict_norm_step]
    rw [mkZoneVal_idem k (pgetD orig "stability" (.num 0))
      (por (pget orig "capacity_kw") (pgetD orig "capacity" (.num 0)))
      (por (pget orig "current_load_kw") (pgetD orig "current_load" (.num 0)))
      (pgetD orig "is_critical" (.bool false)) (pgetD orig "status" (.str "normal"))
      hcap hload]
  have hstept : ∀ p ∈ tra, ∀ acc,
      dict_norm_step mkSectorVal acc p = dinsert p.1 p.2 acc := by
    intro p hp acc
    obtain ⟨orig, ho⟩ := htra.2 p hp
    rcases p with ⟨k, v⟩
    simp only [mkSectorVal] at ho
    subst ho
    have hfp := hallt _ hp
    replace hfp : (falsy_ok_num (por (pget orig "congestion_level")
        (pgetD orig "congestion" (.num 0))) &&
      falsy_ok_bool (por (pget orig "is_blocked")
        (pgetD orig "blocked" (.bool false)))) = true := hfp
    rw [Bool.and_eq_true] at hfp
    obtain ⟨hcong, hblk⟩ := hfp
    simp only [dict_norm_step]
    rw [mkSectorVal_idem k
      (por (pget orig "congestion_level") (pgetD orig "congestion" (.num 0)))
      (por (pget orig "is_blocked") (pgetD orig "blocked" (.bool false)))
      (pgetD orig "description" (.str "")) hcong hblk]
  have hz2 : normalize_zones (.dict zs) = some zs := by
    simp only [normalize_zones]
    rw [dict_fold_self mkZoneVal zs hzs.1 hstepz]
  have ht2 : normalize_traffic (.dict tra) = some tra := by
    simp only [normalize_traffic]
    rw [dict_fold_self mkSectorVal tra htra.1 hstept]
  show (normalize_zones (PVal.dict zs)).bind (fun zs2 =>
      (normalize_incidents inc).bind (fun inc2 =>
        (normalize_drones dro).bind (fun dro2 =>
          (normalize_traffic (PVal.dict tra)).bind (fun tra2 =>
            some [("zones", PVal.dict zs2), ("incidents", inc2), ("drones", dro2),
                  ("traffic", PVal.dict tra2), ("infrastructure", infV)]))))
      = some [("zones", PVal.dict zs), ("incidents", inc), ("drones", dro),
              ("traffic", PVal.dict tra), ("infrastructure", infV)]
  rw [hz2, hinc, hdro, ht2]
  rfl

theorem normalize_state_conditional_idempotent_witness :
    normalize_state capFiveRaw = some capFiveNorm ∧ norm_idem_ok capFiveNorm = true ∧
    normalize_state capFiveNorm = some capFiveNorm := by
  have h1 : normalize_state capFiveRaw = some capFiveNorm := rfl
  have h2 : norm_idem_ok capFiveNorm = true := rfl
  exact ⟨h1, h2, normalize_state_conditional_idempotent capFiveRaw capFiveNorm h1 h2⟩

/-- Claim C5, counterexample: a zone with raw `capacity: None` normalizes
to a state storing the falsy `capacity_kw: None`; renormalizing that
output replaces it by the default `0.0`, so the second pass differs from
the first. -/
theorem normalize_state_not_idempotent_counterexample :
    normalize_state rawCapNone = some rawCapNorm1 ∧
    normalize_state rawCapNorm1 = some rawCapNorm2 ∧
    rawCapNorm1 ≠ rawCapNorm2 := by
  refine ⟨rfl, rfl, ?_⟩
  intro h
  simp [rawCapNorm1, rawCapNorm2] at h

end Workshop
